import Mathlib

/-!
# MT3_02_01 : sphere/sphere collision test, the 4x4 transform helpers and the frame loop

Shallow embedding of `src/main.cpp`.

Numbers: every definition taken from the source is generic in the number type `α` and uses
only its operations `+ - * /`, negation, comparison, the conversions from integers and the
literals.  That gives each definition two readings.

* Over `F32`, the model of IEEE 754 binary32 defined below, a definition computes what the
  compiled code computes: every operation is rounded to the nearest `float` (ties to even),
  a literal is the `float` nearest to the decimal number, and overflow, infinities, NaN and the
  signed zeros behave as in the code.
* Over a linearly ordered field (`ℚ`, `ℝ`) the same definition is the exact-arithmetic
  reading, in which a literal is the decimal number that is written.

A theorem stated for a field `α` is a statement about the exact reading; a statement about
the code as it runs is a statement over `F32`.

Library functions: `std::sqrt`, `cosf`, `sinf` and `tanf` belong to the C library, not to the
repository, so the definitions that call them take them as parameters (`sqrtf`, `cosf`,
`sinf`, `tanf`).  The theorems over a field assume of them only the facts they use.  Over
`F32` the square root is `F32.sqrt` (correctly rounded, as IEEE 754 requires), and the
trigonometric functions are given by tables (`cosfTab`, `sinfTab`, `tanfTab`) of the binary32
numbers nearest to the real values at the angles that are evaluated.

Frame loop: the camera and the input snapshots are a state, one pass through the
loop body is the function `frame` of that state and of what the engine and the
UI layer return in the frame, and `runLoop` iterates it over a list of such
inputs.
-/

namespace MT3

/-! ## Binary32 arithmetic

The number type of the second reading of the code: IEEE 754 binary32 with rounding to nearest,
ties to even.  Every operation `+ - * /` and `sqrt` returns the binary32 number nearest to the
exact result.  Normal and subnormal numbers, the two zeros, the two infinities and NaN are
represented; the NaNs are one value. -/

/-- A value of the C++ type `float`: `fin neg m e` is the finite number `(-1)^neg * m * 2^e`,
kept with `m` odd, the zeros being `fin false 0 0` (`+0`) and `fin true 0 0` (`-0`); `inf neg`
is the infinity of that sign; `nan` is a NaN.  Equality of two values of this type is equality
of the numbers, with `+0` and `-0` told apart. -/
inductive F32 where
  | fin (neg : Bool) (m : Nat) (e : Int)
  | inf (neg : Bool)
  | nan
deriving DecidableEq, Repr

/-- One step of the binary search of `F32.log2`: when `n` has a bit at position `k` or above,
shift it down by `k` and count `k`. -/
def F32.log2Step (k : Nat) (s : Nat × Nat) : Nat × Nat :=
  if s.1 >>> k = 0 then s else (s.1 >>> k, s.2 + k)

/-- The position of the top bit of `n` (`0` for `n = 0`), for `n < 2 ^ 1024`. -/
def F32.log2 (n : Nat) : Nat :=
  (F32.log2Step 1 (F32.log2Step 2 (F32.log2Step 4 (F32.log2Step 8 (F32.log2Step 16
    (F32.log2Step 32 (F32.log2Step 64 (F32.log2Step 128 (F32.log2Step 256
      (F32.log2Step 512 (n, 0))))))))))).2

/-- Rounding to binary32 of the number `(-1)^neg * (N + f) * 2^ex`, where `0 ≤ f < 1` and
`sticky` tells whether `f ≠ 0`; `N` has at least 26 bits.  The result is a multiple of `2^g`,
`g` being the exponent of the last of the 24 significant bits, and at least `-149` (subnormal
numbers); the nearest multiple is taken, the even one in a tie; a result that rounds to zero
keeps the sign, and `2^128` and above is the infinity of the sign. -/
def F32.roundBits (neg : Bool) (N : Nat) (sticky : Bool) (ex : Int) : F32 :=
  let top : Int := (F32.log2 N : Int) + ex
  let g : Int := max (top - 23) (-149)
  let k : Nat := (g - ex).toNat
  let Q : Nat := N >>> k
  let R : Nat := N - (Q <<< k)
  let half : Nat := 1 <<< (k - 1)
  let up : Bool := decide (half < R) || (decide (R = half) && (sticky || decide (Q % 2 = 1)))
  let Q1 : Nat := if up then Q + 1 else Q
  if Q1 = 0 then F32.fin neg 0 0
  else if 128 ≤ (F32.log2 Q1 : Int) + (ex + (k : Int)) then F32.inf neg
  else
    let tz : Nat := F32.log2 (Q1 ^^^ (Q1 - 1))
    F32.fin neg (Q1 >>> tz) (ex + (k : Int) + (tz : Int))

/-- Rounding to binary32 of the number `(-1)^neg * (p / q) * 2^e`, for `q ≠ 0`: the quotient is
first computed to at least 27 bits, with the rest of the division as the sticky bit. -/
def F32.round (neg : Bool) (p q : Nat) (e : Int) : F32 :=
  if q = 0 then F32.nan
  else if p = 0 then F32.fin neg 0 0
  else
    let s : Nat := (28 + F32.log2 q) - F32.log2 p
    F32.roundBits neg ((p <<< s) / q) (decide ((p <<< s) % q ≠ 0)) (e - (s : Int))

/-- The integer `(-1)^neg * m`. -/
def F32.toInt (neg : Bool) (m : Nat) : Int :=
  if neg then -(m : Int) else (m : Int)

/-- Binary32 addition: the exact sum, rounded.  An exact sum `0` is `-0` when both operands are
negative, else `+0`; infinities of opposite signs give NaN. -/
def F32.add : F32 → F32 → F32
  | F32.fin n1 m1 e1, F32.fin n2 m2 e2 =>
    let e := min e1 e2
    let s : Int := F32.toInt n1 (m1 <<< (e1 - e).toNat) + F32.toInt n2 (m2 <<< (e2 - e).toNat)
    if s = 0 then F32.fin (n1 && n2) 0 0
    else F32.round (decide (s < 0)) s.natAbs 1 e
  | F32.inf a, F32.fin _ _ _ => F32.inf a
  | F32.fin _ _ _, F32.inf b => F32.inf b
  | F32.inf a, F32.inf b => if a = b then F32.inf a else F32.nan
  | _, _ => F32.nan

/-- Binary32 negation: the sign is flipped, also that of a zero and of an infinity. -/
def F32.neg : F32 → F32
  | F32.fin n m e => F32.fin (!n) m e
  | F32.inf n => F32.inf (!n)
  | F32.nan => F32.nan

/-- Binary32 subtraction: the exact difference, rounded. -/
def F32.sub (a b : F32) : F32 :=
  F32.add a (F32.neg b)

/-- Binary32 multiplication: the exact product, rounded; zero times an infinity is NaN. -/
def F32.mul : F32 → F32 → F32
  | F32.fin n1 m1 e1, F32.fin n2 m2 e2 => F32.round (n1 != n2) (m1 * m2) 1 (e1 + e2)
  | F32.inf a, F32.fin n m _ => if m = 0 then F32.nan else F32.inf (a != n)
  | F32.fin n m _, F32.inf b => if m = 0 then F32.nan else F32.inf (n != b)
  | F32.inf a, F32.inf b => F32.inf (a != b)
  | _, _ => F32.nan

/-- Binary32 division: the exact quotient, rounded; a non-zero number divided by zero is an
infinity, and `0 / 0` and the quotient of two infinities are NaN. -/
def F32.div : F32 → F32 → F32
  | F32.fin n1 m1 e1, F32.fin n2 m2 e2 =>
    if m2 = 0 then (if m1 = 0 then F32.nan else F32.inf (n1 != n2))
    else F32.round (n1 != n2) m1 m2 (e1 - e2)
  | F32.fin n _ _, F32.inf b => F32.fin (n != b) 0 0
  | F32.inf a, F32.fin n _ _ => F32.inf (a != n)
  | _, _ => F32.nan

/-- The comparison `a <= b`; `+0` and `-0` compare equal, and a comparison with NaN is
`false`. -/
def F32.le : F32 → F32 → Bool
  | F32.fin n1 m1 e1, F32.fin n2 m2 e2 =>
    let e := min e1 e2
    decide (F32.toInt n1 (m1 <<< (e1 - e).toNat) ≤ F32.toInt n2 (m2 <<< (e2 - e).toNat))
  | F32.inf a, F32.fin _ _ _ => a
  | F32.fin _ _ _, F32.inf b => !b
  | F32.inf a, F32.inf b => a || !b
  | _, _ => false

/-- The comparison `a < b`; `+0` and `-0` compare equal, and a comparison with NaN is
`false`. -/
def F32.lt : F32 → F32 → Bool
  | F32.fin n1 m1 e1, F32.fin n2 m2 e2 =>
    let e := min e1 e2
    decide (F32.toInt n1 (m1 <<< (e1 - e).toNat) < F32.toInt n2 (m2 <<< (e2 - e).toNat))
  | F32.inf a, F32.fin _ _ _ => a
  | F32.fin _ _ _, F32.inf b => !b
  | F32.inf a, F32.inf b => a && !b
  | _, _ => false

/-- Newton's iteration for the integer square root, at most `fuel` steps from the guess `g`. -/
def F32.isqrtIter : Nat → Nat → Nat → Nat
  | 0, _, g => g
  | fuel + 1, n, g =>
    let next := (g + n / g) / 2
    if next < g then F32.isqrtIter fuel n next else g

/-- The integer square root: the largest `r` with `r * r ≤ n`. -/
def F32.isqrt (n : Nat) : Nat :=
  if n ≤ 1 then n else F32.isqrtIter 256 n (1 <<< (F32.log2 n / 2 + 1))

/-- Binary32 square root (`std::sqrt` on `float`): the exact root, rounded; a zero and `+inf`
are returned as they are, and a negative argument gives NaN. -/
def F32.sqrt : F32 → F32
  | F32.fin n m e =>
    if m = 0 then F32.fin n 0 0
    else if n then F32.nan
    else
      let j : Nat := 2 * (60 - F32.log2 m / 2) + (e % 2).toNat
      let M : Nat := m <<< j
      let r : Nat := F32.isqrt M
      F32.roundBits false r (decide (r * r ≠ M)) ((e - (j : Int)) / 2)
  | F32.inf false => F32.inf false
  | _ => F32.nan

/-- The number `0.0f`. -/
instance F32.instZero : Zero F32 :=
  ⟨F32.fin false 0 0⟩

/-- The number `1.0f`. -/
instance F32.instOne : One F32 :=
  ⟨F32.fin false 1 0⟩

/-- The conversion of an unsigned integer to `float`, rounded. -/
instance F32.instNatCast : NatCast F32 :=
  ⟨fun n => F32.round false n 1 0⟩

/-- The conversion of an `int` to `float`, rounded. -/
instance F32.instIntCast : IntCast F32 :=
  ⟨fun i => F32.round (decide (i < 0)) i.natAbs 1 0⟩

/-- A decimal literal with the suffix `f`: the decimal number, rounded. -/
instance F32.instOfScientific : OfScientific F32 :=
  ⟨fun m s e => if s then F32.round false m (10 ^ e) 0 else F32.round false (m * 10 ^ e) 1 0⟩

/-- The operator `+` on `float`. -/
instance F32.instAdd : Add F32 :=
  ⟨F32.add⟩

/-- The operator `-` on `float`. -/
instance F32.instSub : Sub F32 :=
  ⟨F32.sub⟩

/-- The operator `*` on `float`. -/
instance F32.instMul : Mul F32 :=
  ⟨F32.mul⟩

/-- The operator `/` on `float`. -/
instance F32.instDiv : Div F32 :=
  ⟨F32.div⟩

/-- The unary operator `-` on `float`. -/
instance F32.instNeg : Neg F32 :=
  ⟨F32.neg⟩

/-- The operator `<=` on `float`. -/
instance F32.instLE : LE F32 :=
  ⟨fun a b => F32.le a b = true⟩

/-- The operator `<` on `float`. -/
instance F32.instLT : LT F32 :=
  ⟨fun a b => F32.lt a b = true⟩

/-- The operator `<=` on `float` is computed by `F32.le`. -/
instance F32.instDecidableLE : DecidableRel (fun a b : F32 => a ≤ b) :=
  fun a b => inferInstanceAs (Decidable (F32.le a b = true))

/-- The operator `<` on `float` is computed by `F32.lt`. -/
instance F32.instDecidableLT : DecidableRel (fun a b : F32 => a < b) :=
  fun a b => inferInstanceAs (Decidable (F32.lt a b = true))

/-! ## The arithmetic of the definitions

The definitions below use only the operations and literals of the type `α`, so each is one
definition with two readings: over an ordered field (exact arithmetic) and over `F32` (the
arithmetic of the compiled code). -/

/-- The class of the operation `+`, under a name that the source's `Add` does not hide. -/
abbrev HasAdd (α : Type) : Type :=
  Add α

/-- The class of the operation `*`, under a name that the source's `Mul` does not hide. -/
abbrev HasMul (α : Type) : Type :=
  Mul α

section Definitions

variable {α : Type} [Zero α] [One α] [HasAdd α] [Sub α] [HasMul α] [Div α] [Neg α]
  [NatCast α] [IntCast α] [OfScientific α] [LE α] [LT α]
  [DecidableRel (fun a b : α => a ≤ b)] [DecidableRel (fun a b : α => a < b)]

/-! ## Basic data structures (`main.cpp` lines 20-29) -/

/-- The C++ `struct Vector3 { float x, y, z; }`. -/
structure Vector3 (α : Type) where
  x : α
  y : α
  z : α
deriving DecidableEq, Repr

/-- The C++ `struct Matrix4x4 { float m[4][4]; }`, `m i j` being `m[i][j]`. -/
structure Matrix4x4 (α : Type) where
  m : Fin 4 → Fin 4 → α

/-- The C++ `struct Sphere { Vector3 center; float radius; }`. -/
structure Sphere (α : Type) where
  center : Vector3 α
  radius : α
deriving DecidableEq, Repr

/-! ## Vector helpers (`main.cpp` lines 34-47) -/

/-- Source `Add(a, b)`: component-wise sum. -/
def Add (a b : Vector3 α) : Vector3 α :=
  ⟨a.x + b.x, a.y + b.y, a.z + b.z⟩

/-- Source `Subtract(a, b)`: component-wise difference. -/
def Subtract (a b : Vector3 α) : Vector3 α :=
  ⟨a.x - b.x, a.y - b.y, a.z - b.z⟩

/-- Source `Scale(v, s)`: every component times `s`. -/
def Scale (v : Vector3 α) (s : α) : Vector3 α :=
  ⟨v.x * s, v.y * s, v.z * s⟩

/-- Source `Dot(a, b)`: `a.x * b.x + a.y * b.y + a.z * b.z`. -/
def Dot (a b : Vector3 α) : α :=
  a.x * b.x + a.y * b.y + a.z * b.z

/-- Source `LengthSq(v)`: `Dot(v, v)`. -/
def LengthSq (v : Vector3 α) : α :=
  Dot v v

/-- Source `Length(v)`: `std::sqrt(LengthSq(v))`, the square root being the parameter `sqrtf`. -/
def Length (sqrtf : α → α) (v : Vector3 α) : α :=
  sqrtf (LengthSq v)

/-! ## Sphere/sphere collision (`main.cpp` lines 52-55) -/

/-- Source `IsCollision(s1, s2)`: `rSum = s1.radius + s2.radius`, then
`LengthSq(Subtract(s1.center, s2.center)) <= rSum * rSum`. -/
def IsCollision (s1 s2 : Sphere α) : Bool :=
  let rSum := s1.radius + s2.radius
  decide (LengthSq (Subtract s1.center s2.center) ≤ rSum * rSum)

/-! ## Matrix helpers (`main.cpp` lines 60-108) -/

/-- Source `Matrix4x4 r{}`: the value-initialised matrix, every entry `0`. -/
def Matrix4x4.zero : Matrix4x4 α :=
  ⟨fun _ _ => 0⟩

/-- The assignment `r.m[i][j] = v`: entry `(i, j)` becomes `v`, every other entry is kept. -/
def Matrix4x4.set (r : Matrix4x4 α) (i j : Fin 4) (v : α) : Matrix4x4 α :=
  ⟨fun a b => if a = i ∧ b = j then v else r.m a b⟩

/-- The index range `0, 1, 2, 3` of the loops `for (int i = 0; i < 4; i++)`. -/
def idx4 : List (Fin 4) :=
  [0, 1, 2, 3]

/-- Source `MakeIdentity()`: starts from the zero matrix and sets `r.m[i][i] = 1` for `i = 0..3`. -/
def MakeIdentity : Matrix4x4 α :=
  idx4.foldl (fun r i => r.set i i 1) Matrix4x4.zero

/-- Source `MakeTranslate(t)`: the identity with row 3 set to `t.x, t.y, t.z`. -/
def MakeTranslate (t : Vector3 α) : Matrix4x4 α :=
  let r : Matrix4x4 α := MakeIdentity
  let r := r.set 3 0 t.x
  let r := r.set 3 1 t.y
  let r := r.set 3 2 t.z
  r

/-- Source `MakeRotateX(a)`: the identity with `m[1][1] = cosf a`, `m[1][2] = sinf a`,
`m[2][1] = -sinf a`, `m[2][2] = cosf a`. -/
def MakeRotateX (cosf sinf : α → α) (a : α) : Matrix4x4 α :=
  let r : Matrix4x4 α := MakeIdentity
  let r := r.set 1 1 (cosf a)
  let r := r.set 1 2 (sinf a)
  let r := r.set 2 1 (-sinf a)
  let r := r.set 2 2 (cosf a)
  r

/-- Source `MakeRotateY(a)`: the identity with `m[0][0] = cosf a`, `m[0][2] = -sinf a`,
`m[2][0] = sinf a`, `m[2][2] = cosf a`. -/
def MakeRotateY (cosf sinf : α → α) (a : α) : Matrix4x4 α :=
  let r : Matrix4x4 α := MakeIdentity
  let r := r.set 0 0 (cosf a)
  let r := r.set 0 2 (-sinf a)
  let r := r.set 2 0 (sinf a)
  let r := r.set 2 2 (cosf a)
  r

/-- Source `Mul(A, B)`: starts from the zero matrix and runs the three nested loops over `i`,
`j`, `k` with body `r.m[i][j] += A.m[i][k] * B.m[k][j]`. -/
def Mul (A B : Matrix4x4 α) : Matrix4x4 α :=
  idx4.foldl (fun r i =>
    idx4.foldl (fun r j =>
      idx4.foldl (fun r k => r.set i j (r.m i j + A.m i k * B.m k j)) r) r) Matrix4x4.zero

/-- The local `w` of `Transform(v, m)`: the homogeneous component
`v.x * m[0][3] + v.y * m[1][3] + v.z * m[2][3] + m[3][3]`. -/
def Transform.w (v : Vector3 α) (m : Matrix4x4 α) : α :=
  v.x * m.m 0 3 + v.y * m.m 1 3 + v.z * m.m 2 3 + m.m 3 3

/-- Source `Transform(v, m)`: the row vector `(v.x, v.y, v.z, 1)` times `m`, then `x`, `y`, `z`
divided by `w`.  Where `w = 0` the division of `F32` gives an infinity or NaN, as the code does;
the division of a field returns `0` there, so in the exact reading the value of `Transform`
means something only where `Transform.w` is non-zero. -/
def Transform (v : Vector3 α) (m : Matrix4x4 α) : Vector3 α :=
  let x := v.x * m.m 0 0 + v.y * m.m 1 0 + v.z * m.m 2 0 + m.m 3 0
  let y := v.x * m.m 0 1 + v.y * m.m 1 1 + v.z * m.m 2 1 + m.m 3 1
  let z := v.x * m.m 0 2 + v.y * m.m 1 2 + v.z * m.m 2 2 + m.m 3 2
  let w := Transform.w v m
  ⟨x / w, y / w, z / w⟩

/-! ## Frame loop, matrix computation (`main.cpp` lines 261-263) -/

/-- The matrix `view` of the frame loop:
`Mul(MakeRotateY(-camRot.y), Mul(MakeRotateX(-camRot.x), MakeTranslate(-camPos)))`. -/
def view (cosf sinf : α → α) (camPos camRot : Vector3 α) : Matrix4x4 α :=
  Mul (MakeRotateY cosf sinf (-camRot.y))
    (Mul (MakeRotateX cosf sinf (-camRot.x))
      (MakeTranslate ⟨-camPos.x, -camPos.y, -camPos.z⟩))

/-- What the theorems assume of `std::sqrt`: on a non-negative argument `x` it returns the
non-negative number whose square is `x`. -/
def SqrtSpec (sqrtf : α → α) : Prop :=
  ∀ x : α, 0 ≤ x → 0 ≤ sqrtf x ∧ sqrtf x * sqrtf x = x

/-! ## Projection and viewport (`main.cpp` lines 109-130) -/

/-- Source `MakePerspectiveFov(fovY, aspect, n, f)`: the zero matrix with
`s = 1 / tanf(fovY * 0.5)`, `m[0][0] = s / aspect`, `m[1][1] = s`, `m[2][2] = f / (n - f)`,
`m[2][3] = -1`, `m[3][2] = (n * f) / (n - f)`; the tangent is the parameter `tanf`. -/
def MakePerspectiveFov (tanf : α → α) (fovY aspect n f : α) : Matrix4x4 α :=
  let r : Matrix4x4 α := Matrix4x4.zero
  let s := 1 / tanf (fovY * 0.5)
  let r := r.set 0 0 (s / aspect)
  let r := r.set 1 1 s
  let r := r.set 2 2 (f / (n - f))
  let r := r.set 2 3 (-1)
  let r := r.set 3 2 ((n * f) / (n - f))
  r

/-- Source `MakeViewport(l, t, w, h, minD, maxD)`: the zero matrix with `m[0][0] = w * 0.5`,
`m[1][1] = h * 0.5`, `m[2][2] = maxD - minD`, `m[3][0] = l + w * 0.5`, `m[3][1] = t + h * 0.5`,
`m[3][2] = minD`, `m[3][3] = 1`. -/
def MakeViewport (l t w h minD maxD : α) : Matrix4x4 α :=
  let r : Matrix4x4 α := Matrix4x4.zero
  let r := r.set 0 0 (w * 0.5)
  let r := r.set 1 1 (h * 0.5)
  let r := r.set 2 2 (maxD - minD)
  let r := r.set 3 0 (l + w * 0.5)
  let r := r.set 3 1 (t + h * 0.5)
  let r := r.set 3 2 minD
  let r := r.set 3 3 1
  r

/-! ## The constant `kPI` and the drawing helpers (`main.cpp` lines 15, 135-174) -/

/-- Source `constexpr float kPI = 3.14159265358979323846f`: the literal of the type `α`.  Over
`F32` it is the constant of the code, the `float` nearest to the decimal number,
`3.1415927410125732421875` (`0x40490FDB`, above `π`); over a field it is the decimal number as
written (below `π`). -/
def kPI : α :=
  3.14159265358979323846

/-- Source `half` of `DrawGrid`: `4.0`. -/
def DrawGrid.half : α :=
  4.0

/-- Source `div` of `DrawGrid`: `20`; the loop index `i` runs over `0 .. div`. -/
def DrawGrid.div : Nat :=
  20

/-- Source `step` of `DrawGrid`: `(half * 2.0) / div`. -/
def DrawGrid.step : α :=
  (DrawGrid.half * 2.0) / (DrawGrid.div : α)

/-- Source `o` of `DrawGrid` at loop index `i`: `-half + i * step`. -/
def DrawGrid.o (i : Nat) : α :=
  -DrawGrid.half + (i : α) * DrawGrid.step

/-- The four world-space endpoints that `DrawGrid` transforms at loop index `i`, in source
order: `{o, 0, -half}`, `{o, 0, half}`, `{-half, 0, o}`, `{half, 0, o}`. -/
def DrawGrid.endpoints (i : Nat) : List (Vector3 α) :=
  [⟨DrawGrid.o i, 0, -DrawGrid.half⟩, ⟨DrawGrid.o i, 0, DrawGrid.half⟩,
   ⟨-DrawGrid.half, 0, DrawGrid.o i⟩, ⟨DrawGrid.half, 0, DrawGrid.o i⟩]

/-- Source `latDiv` of `DrawSphereWire`: `12`; `lat` runs over `0 .. latDiv`. -/
def DrawSphereWire.latDiv : Nat :=
  12

/-- Source `lonDiv` of `DrawSphereWire`: `24`; `lon` runs over `0 .. lonDiv - 1`. -/
def DrawSphereWire.lonDiv : Nat :=
  24

/-- Source `latA` of `DrawSphereWire`: `(-0.5 + float(lat) / latDiv) * kPI`. -/
def DrawSphereWire.latA (lat : Nat) : α :=
  (-0.5 + (lat : α) / (DrawSphereWire.latDiv : α)) * kPI

/-- Source `lonA` of `DrawSphereWire`: `2.0 * kPI * float(lon) / lonDiv`. -/
def DrawSphereWire.lonA (lon : Nat) : α :=
  2.0 * kPI * (lon : α) / (DrawSphereWire.lonDiv : α)

/-- Source `lonB` of `DrawSphereWire`: `2.0 * kPI * float(lon + 1) / lonDiv`. -/
def DrawSphereWire.lonB (lon : Nat) : α :=
  2.0 * kPI * ((lon + 1 : Nat) : α) / (DrawSphereWire.lonDiv : α)

/-- Source `p1` of `DrawSphereWire` before the screen transform: the world-space point at
latitude `latA` and longitude `lonA`. -/
def DrawSphereWire.p1 (cosf sinf : α → α) (sp : Sphere α) (lat lon : Nat) : Vector3 α :=
  ⟨sp.radius * cosf (DrawSphereWire.latA lat) * cosf (DrawSphereWire.lonA lon) + sp.center.x,
   sp.radius * sinf (DrawSphereWire.latA lat) + sp.center.y,
   sp.radius * cosf (DrawSphereWire.latA lat) * sinf (DrawSphereWire.lonA lon) + sp.center.z⟩

/-- Source `p2` of `DrawSphereWire` before the screen transform: the world-space point at
latitude `latA` and longitude `lonB`. -/
def DrawSphereWire.p2 (cosf sinf : α → α) (sp : Sphere α) (lat lon : Nat) : Vector3 α :=
  ⟨sp.radius * cosf (DrawSphereWire.latA lat) * cosf (DrawSphereWire.lonB lon) + sp.center.x,
   sp.radius * sinf (DrawSphereWire.latA lat) + sp.center.y,
   sp.radius * cosf (DrawSphereWire.latA lat) * sinf (DrawSphereWire.lonB lon) + sp.center.z⟩

/-! ## Frame loop (`main.cpp` lines 187-283)

The camera and the input snapshots are the state; what the engine and the UI layer return in a
frame is the frame's input.  The two spheres and the draw calls are not part of this state. -/

/-- The key codes the loop reads, `DIK_W` ... `DIK_ESCAPE`; they come from DirectInput, not from
the repository, so the loop takes them as a parameter. -/
structure KeyCodes where
  DIK_W : Fin 256
  DIK_S : Fin 256
  DIK_A : Fin 256
  DIK_D : Fin 256
  DIK_UP : Fin 256
  DIK_DOWN : Fin 256
  DIK_ESCAPE : Fin 256

/-- What one frame reads from outside: the result of `Novice::ProcessMessage()`, the key array
filled by `GetHitKeyStateAll`, the cursor position of `GetMousePosition`, whether
`IsPressMouse(1)` is non-zero, and what the widgets `DragFloat3("Pos")` and `DragFloat3("Rot")`
do to the value they are bound to (read, modify, write). -/
structure FrameInput (α : Type) where
  processMessage : Int
  keys : Fin 256 → Int
  mouseX : Int
  mouseY : Int
  pressMouse1 : Bool
  uiPos : Vector3 α → Vector3 α
  uiRot : Vector3 α → Vector3 α

/-- The variables of `WinMain` that live across frames: `keys`, `preKeys`, `camPos`, `camRot`
(`x` is the pitch, `y` the yaw), `prevMouseX`, `prevMouseY`. -/
structure LoopState (α : Type) where
  keys : Fin 256 → Int
  preKeys : Fin 256 → Int
  camPos : Vector3 α
  camRot : Vector3 α
  prevMouseX : Int
  prevMouseY : Int

/-- The state before the first frame: both key arrays zero, `camPos = (0, 2, -8)`,
`camRot = (0, 0, 0)`, `prevMouseX = prevMouseY = 0`. -/
def WinMain.init : LoopState α :=
  { keys := fun _ => 0, preKeys := fun _ => 0, camPos := ⟨0.0, 2.0, -8.0⟩,
    camRot := ⟨0.0, 0.0, 0.0⟩, prevMouseX := 0, prevMouseY := 0 }

/-- Source `sphere1` of `WinMain`, as initialised: centre `(-1.5, 0.5, 0.0)`, radius `1.0`. -/
def WinMain.sphere1 : Sphere α :=
  ⟨⟨-1.5, 0.5, 0.0⟩, 1.0⟩

/-- Source `sphere2` of `WinMain`, as initialised: centre `(1.0, 0.5, 0.5)`, radius `1.2`. -/
def WinMain.sphere2 : Sphere α :=
  ⟨⟨1.0, 0.5, 0.5⟩, 1.2⟩

/-- Source `moveSpd`: `0.05`. -/
def moveSpd : α :=
  0.05

/-- Source `rotSpd`: `0.005`. -/
def rotSpd : α :=
  0.005

/-- The library `std::clamp(v, lo, hi)`: `lo` when `v < lo`, `hi` when `hi < v`, else `v`. -/
def clamp (v lo hi : α) : α :=
  if v < lo then lo else if hi < v then hi else v

/-- One pass through the loop body, from `BeginFrame` to `EndFrame`: the key snapshot moves to
`preKeys` and the poll becomes `keys`; the held movement keys shift `camPos`; when the right
button is pressed the cursor displacement turns the camera and the pitch is clamped; the
cursor position is remembered; then the widgets `Pos` and `Rot` act on `camPos` and `camRot`. -/
def frame (dik : KeyCodes) (st : LoopState α) (inp : FrameInput α) : LoopState α :=
  let preKeys := st.keys
  let keys := inp.keys
  let camPos := st.camPos
  let camPos := if keys dik.DIK_W ≠ 0 then { camPos with z := camPos.z + moveSpd } else camPos
  let camPos := if keys dik.DIK_S ≠ 0 then { camPos with z := camPos.z - moveSpd } else camPos
  let camPos := if keys dik.DIK_A ≠ 0 then { camPos with x := camPos.x - moveSpd } else camPos
  let camPos := if keys dik.DIK_D ≠ 0 then { camPos with x := camPos.x + moveSpd } else camPos
  let camPos := if keys dik.DIK_UP ≠ 0 then { camPos with y := camPos.y + moveSpd } else camPos
  let camPos := if keys dik.DIK_DOWN ≠ 0 then { camPos with y := camPos.y - moveSpd } else camPos
  let camRot := st.camRot
  let camRot :=
    if inp.pressMouse1 then
      let dx := inp.mouseX - st.prevMouseX
      let dy := inp.mouseY - st.prevMouseY
      let camRot := { camRot with y := camRot.y + (dx : α) * rotSpd }
      let camRot := { camRot with x := camRot.x + (dy : α) * rotSpd }
      { camRot with x := clamp camRot.x (-kPI * 0.49) (kPI * 0.49) }
    else camRot
  let camPos := inp.uiPos camPos
  let camRot := inp.uiRot camRot
  { keys := keys, preKeys := preKeys, camPos := camPos, camRot := camRot,
    prevMouseX := inp.mouseX, prevMouseY := inp.mouseY }

/-- The test at the end of the loop body: `preKeys[DIK_ESCAPE] == 0 && keys[DIK_ESCAPE] != 0`,
on which the loop breaks. -/
def exitCheck (dik : KeyCodes) (st : LoopState α) : Bool :=
  decide (st.preKeys dik.DIK_ESCAPE = 0) && decide (st.keys dik.DIK_ESCAPE ≠ 0)

/-- The loop `while (Novice::ProcessMessage() == 0) { ... }` run on a list of frame inputs: it
stops before a frame whose `ProcessMessage` is non-zero and after a frame whose `exitCheck`
holds; the result is the state when the loop is left or the inputs are used up. -/
def runLoop (dik : KeyCodes) : LoopState α → List (FrameInput α) → LoopState α
  | st, [] => st
  | st, inp :: rest =>
    if inp.processMessage ≠ 0 then st
    else if exitCheck dik (frame dik st inp) then frame dik st inp
    else runLoop dik (frame dik st inp) rest

/-- The matrix `proj` of the frame loop: `MakePerspectiveFov(0.45, 1280 / 720, 0.1, 100)`. -/
def proj (tanf : α → α) : Matrix4x4 α :=
  MakePerspectiveFov tanf 0.45 (1280.0 / 720.0) 0.1 100.0

/-- The matrix `vp` of the frame loop: `Mul(view, proj)`. -/
def vp (cosf sinf tanf : α → α) (camPos camRot : Vector3 α) : Matrix4x4 α :=
  Mul (view cosf sinf camPos camRot) (proj tanf)

/-- The matrix `vpm` of the frame loop: `MakeViewport(0, 0, 1280, 720, 0, 1)`. -/
def vpm : Matrix4x4 α :=
  MakeViewport 0 0 1280 720 0.0 1.0

/-- The DirectInput values of the key codes: `DIK_ESCAPE = 0x01`, `DIK_W = 0x11`,
`DIK_A = 0x1E`, `DIK_S = 0x1F`, `DIK_D = 0x20`, `DIK_UP = 0xC8`, `DIK_DOWN = 0xD0`. -/
def dinput : KeyCodes :=
  { DIK_W := 0x11, DIK_S := 0x1F, DIK_A := 0x1E, DIK_D := 0x20, DIK_UP := 0xC8,
    DIK_DOWN := 0xD0, DIK_ESCAPE := 0x01 }

/-- A frame in which nothing is pressed, the cursor rests at `(0, 0)` and the widgets leave
their values alone. -/
def idleInput : FrameInput α :=
  { processMessage := 0, keys := fun _ => 0, mouseX := 0, mouseY := 0, pressMouse1 := false,
    uiPos := fun v => v, uiRot := fun v => v }

/-- A frame in which the widget `Rot` writes the pitch `2` and nothing else happens. -/
def uiPitchInput : FrameInput α :=
  { (idleInput : FrameInput α) with uiRot := fun r => { r with x := 2 } }

/-- A frame in which the right button is pressed and the cursor has moved to `(10, 1000)`. -/
def dragInput : FrameInput α :=
  { (idleInput : FrameInput α) with pressMouse1 := true, mouseX := 10, mouseY := 1000 }

/-- A frame in which the widget `Pos` writes the camera position `(0, 2, -4)` and nothing else
happens. -/
def uiPosInput : FrameInput α :=
  { (idleInput : FrameInput α) with uiPos := fun _ => ⟨0, 2, -4⟩ }

/-- A frame in which only the key `W` is held (`GetHitKeyStateAll` reports `0x80`, as a `char`
`-128`) and nothing else happens. -/
def holdWInput : FrameInput α :=
  { (idleInput : FrameInput α) with keys := fun k => if k = dinput.DIK_W then -128 else 0 }

/-! ## Inputs of the binary32 counterexamples -/

/-- The rational number that a finite `F32` value is (`0` for an infinity and for NaN). -/
def F32.toRat : F32 → ℚ
  | F32.fin neg m e => (if neg then -(m : ℚ) else (m : ℚ)) * (2 : ℚ) ^ e
  | _ => 0

/-- The values of the C library's `cosf` at the angles the counterexamples use, each the
binary32 number nearest to the real cosine: `cosf(0) = 1`, `cosf(±0.5) = 0.87758255`
(`0x3F60A940`), `cosf(±1) = 0.54030228` (`0x3F0A5140`), `cosf(±2) = -0.41614684`
(`0xBED51133`), `cosf(6.0213857) = 0.96592575` (`0x3F7746E9`), `cosf(6.2831855) = 1`;
the table has no other entry and gives NaN at every other angle. -/
def cosfTab (a : F32) : F32 :=
  if a = 0 ∨ a = -0 then 1
  else if a = 0.5 ∨ a = -0.5 then F32.fin false 230053 (-18)
  else if a = 1 ∨ a = -1 then F32.fin false 141637 (-18)
  else if a = 2 ∨ a = -2 then F32.fin true 13963571 (-25)
  else if a = F32.fin false 12627761 (-21) then F32.fin false 16205545 (-24)
  else if a = F32.fin false 13176795 (-21) then 1
  else F32.nan

/-- The values of the C library's `sinf` at the angles the counterexamples use, each the
binary32 number nearest to the real sine: `sinf(0) = 0`, `sinf(±0.5) = ±0.47942555`
(`0x3EF57744`), `sinf(±1) = ±0.84147096` (`0x3F576AA4`), `sinf(±2) = ±0.90929741`
(`0x3F68C7B7`), `sinf(6.0213857) = -0.25881928` (`0xBE8483F6`),
`sinf(6.2831855) = 1.7484555e-7` (`0x343BBD2E`); the table has no other entry and gives NaN
at every other angle. -/
def sinfTab (a : F32) : F32 :=
  if a = 0 then 0
  else if a = -0 then -0
  else if a = 0.5 then F32.fin false 4021713 (-23)
  else if a = -0.5 then F32.fin true 4021713 (-23)
  else if a = 1 then F32.fin false 3529385 (-22)
  else if a = -1 then F32.fin true 3529385 (-22)
  else if a = 2 then F32.fin false 15255479 (-24)
  else if a = -2 then F32.fin true 15255479 (-24)
  else if a = F32.fin false 12627761 (-21) then F32.fin true 4342267 (-24)
  else if a = F32.fin false 13176795 (-21) then F32.fin false 6151831 (-45)
  else F32.nan

/-- The value of the C library's `tanf` at the half field of view of the frame loop,
`0.45f * 0.5f = 0.225`: `tanf(0.225) = 0.22887537` (`0x3E6A5E4E`); the table has no other
entry and gives NaN elsewhere. -/
def tanfTab (a : F32) : F32 :=
  if a = F32.fin false 7549747 (-25) then F32.fin false 7679783 (-25) else F32.nan

/-- A sphere at the origin with radius `7.14453125 = 1829 / 256`. -/
def tangentA : Sphere F32 :=
  ⟨⟨0, 0, 0⟩, 7.14453125⟩

/-- A sphere with centre `(7.14453125, 7.14453125, 12.5029296875)`, at distance
`16.0751953125` from the origin, and radius `8.9306640625`; all four numbers are binary32
numbers, and `7.14453125 + 8.9306640625 = 16.0751953125`. -/
def tangentB : Sphere F32 :=
  ⟨⟨7.14453125, 7.14453125, 12.5029296875⟩, 8.9306640625⟩

/-- The unit sphere at the origin. -/
def unitA : Sphere F32 :=
  ⟨⟨0, 0, 0⟩, 1⟩

/-- A sphere with centre `(2, 0, 0)` and radius `1 - 2^-24 = 0.99999994`, the binary32 number
just below `1`. -/
def nearUnitB : Sphere F32 :=
  ⟨⟨2, 0, 0⟩, F32.fin false 16777215 (-24)⟩

/-- The matrix `diag(1, 1, 1, 3)`. -/
def diag3 : Matrix4x4 F32 :=
  Matrix4x4.set MakeIdentity 3 3 3

end Definitions

section Theorems

variable {α : Type} [LinearOrderedField α]

/-! ## Theorems -/

/-- A squared length is never negative. -/
theorem LengthSq_nonneg (v : Vector3 α) : 0 ≤ LengthSq v := by
  simp only [LengthSq, Dot]
  have hx := mul_self_nonneg v.x
  have hy := mul_self_nonneg v.y
  have hz := mul_self_nonneg v.z
  linarith

/-- Under `SqrtSpec`, `Length v` is non-negative and squares to `LengthSq v`. -/
theorem Length_spec {sqrtf : α → α} (hsqrt : SqrtSpec sqrtf) (v : Vector3 α) :
    0 ≤ Length sqrtf v ∧ Length sqrtf v * Length sqrtf v = LengthSq v :=
  hsqrt (LengthSq v) (LengthSq_nonneg v)

/-- The real square root meets `SqrtSpec`. -/
theorem SqrtSpec_real : SqrtSpec Real.sqrt :=
  fun x hx => ⟨Real.sqrt_nonneg x, Real.mul_self_sqrt hx⟩

/-- Over the reals the centres `(0,0,0)` and `(k,0,0)`, `0 ≤ k`, are at distance `k`. -/
theorem Length_real_axis (k : ℝ) (hk : 0 ≤ k) :
    Length Real.sqrt (Subtract (⟨0, 0, 0⟩ : Vector3 ℝ) ⟨k, 0, 0⟩) = k := by
  have h : LengthSq (Subtract (⟨0, 0, 0⟩ : Vector3 ℝ) ⟨k, 0, 0⟩) = k * k := by
    simp [LengthSq, Dot, Subtract]
  rw [Length, h, Real.sqrt_mul_self hk]

/-- Two matrices with the same sixteen entries are equal. -/
theorem Matrix4x4.ext_entries {β : Type} {A B : Matrix4x4 β}
    (h : ∀ i j, A.m i j = B.m i j) : A = B := by
  cases A; cases B
  simp only [Matrix4x4.mk.injEq]
  funext i j
  exact h i j

/-- Entry `(i, j)` of `Mul A B` after the three loops: the sum, accumulated from `0` in the
order `k = 0, 1, 2, 3`, of `A.m i k * B.m k j`. -/
theorem Mul_m (A B : Matrix4x4 α) (i j : Fin 4) :
    (Mul A B).m i j = 0 + A.m i 0 * B.m 0 j + A.m i 1 * B.m 1 j + A.m i 2 * B.m 2 j
      + A.m i 3 * B.m 3 j := by
  fin_cases i <;> fin_cases j <;> rfl

/-- Entry `(i, j)` of `MakeIdentity`: `1` on the diagonal, `0` elsewhere. -/
theorem MakeIdentity_m (i j : Fin 4) :
    (MakeIdentity : Matrix4x4 α).m i j = if i = j then 1 else 0 := by
  fin_cases i <;> fin_cases j <;> rfl

/-- Under the identity matrix the homogeneous component is `1` and the point is unchanged. -/
theorem Transform_id_aux (p : Vector3 α) :
    Transform.w p (MakeIdentity : Matrix4x4 α) = 1 ∧ Transform p MakeIdentity = p := by
  have hw : Transform.w p (MakeIdentity : Matrix4x4 α) = 1 := by
    simp [Transform.w, MakeIdentity_m]
  refine ⟨hw, ?_⟩
  cases p
  simp [Transform, hw, MakeIdentity_m]

/-- The literal `0.5` is one half. -/
theorem half_eq : (0.5 : α) = 1 / 2 := by norm_num

/-- The value of `Transform`: the first three homogeneous coordinates, each divided by the
fourth, `Transform.w`. -/
theorem Transform_eq (v : Vector3 α) (m : Matrix4x4 α) :
    Transform v m =
      ⟨(v.x * m.m 0 0 + v.y * m.m 1 0 + v.z * m.m 2 0 + m.m 3 0) / Transform.w v m,
       (v.x * m.m 0 1 + v.y * m.m 1 1 + v.z * m.m 2 1 + m.m 3 1) / Transform.w v m,
       (v.x * m.m 0 2 + v.y * m.m 1 2 + v.z * m.m 2 2 + m.m 3 2) / Transform.w v m⟩ := rfl

/-- Column `j` of the row vector `(p, 1)` times `Mul A C`, through the row vector times `A`. -/
theorem row_Mul (A C : Matrix4x4 α) (p : Vector3 α) (j : Fin 4) :
    p.x * (Mul A C).m 0 j + p.y * (Mul A C).m 1 j + p.z * (Mul A C).m 2 j + (Mul A C).m 3 j
      = (p.x * A.m 0 0 + p.y * A.m 1 0 + p.z * A.m 2 0 + A.m 3 0) * C.m 0 j
        + (p.x * A.m 0 1 + p.y * A.m 1 1 + p.z * A.m 2 1 + A.m 3 1) * C.m 1 j
        + (p.x * A.m 0 2 + p.y * A.m 1 2 + p.z * A.m 2 2 + A.m 3 2) * C.m 2 j
        + (p.x * A.m 0 3 + p.y * A.m 1 3 + p.z * A.m 2 3 + A.m 3 3) * C.m 3 j := by
  simp only [Mul_m]
  ring

/-- Dividing a row vector by `W` and then by its new fourth coordinate is dividing once. -/
theorem div_twice (X Y Z W c0 c1 c2 c3 d0 d1 d2 d3 : α) (hW : W ≠ 0) :
    (X / W * c0 + Y / W * c1 + Z / W * c2 + c3) / (X / W * d0 + Y / W * d1 + Z / W * d2 + d3)
      = (X * c0 + Y * c1 + Z * c2 + W * c3) / (X * d0 + Y * d1 + Z * d2 + W * d3) := by
  have hn : X / W * c0 + Y / W * c1 + Z / W * c2 + c3
      = (X * c0 + Y * c1 + Z * c2 + W * c3) / W := by
    field_simp
    ring
  have hd : X / W * d0 + Y / W * d1 + Z / W * d2 + d3
      = (X * d0 + Y * d1 + Z * d2 + W * d3) / W := by
    field_simp
    ring
  rw [hn, hd, div_div_div_cancel_right₀ hW]

/-- The homogeneous component after a first `Transform` is the one under the product divided
by the first one. -/
theorem Transform_w_Mul_aux (A C : Matrix4x4 α) (p : Vector3 α) (hA : Transform.w p A ≠ 0) :
    Transform.w (Transform p A) C = Transform.w p (Mul A C) / Transform.w p A := by
  rw [Transform_eq p A]
  simp only [Transform.w, row_Mul] at hA ⊢
  field_simp
  ring

/-- Two `Transform`s in a row are one `Transform` by the product, where the first homogeneous
component is non-zero. -/
theorem Transform_Mul_aux (A C : Matrix4x4 α) (p : Vector3 α) (hA : Transform.w p A ≠ 0) :
    Transform (Transform p A) C = Transform p (Mul A C) := by
  rw [Transform_eq (Transform p A) C, Transform_eq p (Mul A C)]
  simp only [Transform.w, row_Mul]
  rw [Transform_eq p A]
  simp only [Transform.w] at hA ⊢
  rw [div_twice _ _ _ _ _ _ _ _ _ _ _ _ hA, div_twice _ _ _ _ _ _ _ _ _ _ _ _ hA,
    div_twice _ _ _ _ _ _ _ _ _ _ _ _ hA]

/-- The sixteen entries of `MakePerspectiveFov`. -/
theorem MakePerspectiveFov_m (tanf : α → α) (fovY aspect n f : α) (i j : Fin 4) :
    (MakePerspectiveFov tanf fovY aspect n f).m i j =
      if i = 0 ∧ j = 0 then 1 / (aspect * tanf (fovY / 2))
      else if i = 1 ∧ j = 1 then 1 / tanf (fovY / 2)
      else if i = 2 ∧ j = 2 then f / (n - f)
      else if i = 2 ∧ j = 3 then -1
      else if i = 3 ∧ j = 2 then n * f / (n - f)
      else 0 := by
  have hhalf : fovY * 0.5 = fovY / 2 := by norm_num [div_eq_mul_inv]
  fin_cases i <;> fin_cases j <;>
    simp [MakePerspectiveFov, Matrix4x4.set, Matrix4x4.zero, hhalf, div_eq_mul_inv, mul_comm]

/-- The sixteen entries of `MakeViewport`. -/
theorem MakeViewport_m (l t w h minD maxD : α) (i j : Fin 4) :
    (MakeViewport l t w h minD maxD).m i j =
      if i = 0 ∧ j = 0 then w / 2
      else if i = 1 ∧ j = 1 then h / 2
      else if i = 2 ∧ j = 2 then maxD - minD
      else if i = 3 ∧ j = 0 then l + w / 2
      else if i = 3 ∧ j = 1 then t + h / 2
      else if i = 3 ∧ j = 2 then minD
      else if i = 3 ∧ j = 3 then 1
      else 0 := by
  fin_cases i <;> fin_cases j <;>
    simp [MakeViewport, Matrix4x4.set, Matrix4x4.zero, half_eq, div_eq_mul_inv]

/-- Under `MakeViewport` the homogeneous component is `1`. -/
theorem Transform_w_MakeViewport (v : Vector3 α) (l t w h minD maxD : α) :
    Transform.w v (MakeViewport l t w h minD maxD) = 1 := by
  simp [Transform.w, MakeViewport_m]

/-- The value of `Transform` under `MakeViewport`. -/
theorem Transform_MakeViewport_aux (x y z l t w h minD maxD : α) :
    Transform ⟨x, y, z⟩ (MakeViewport l t w h minD maxD)
      = ⟨l + (x + 1) * w / 2, t + (y + 1) * h / 2, minD + z * (maxD - minD)⟩ := by
  rw [Transform_eq, Transform_w_MakeViewport]
  simp [MakeViewport_m]
  refine ⟨?_, ?_, ?_⟩ <;> ring

/-- The bounds of the pitch clamp are in order: `-kPI * 0.49 ≤ kPI * 0.49`. -/
theorem pitch_bounds : (-kPI * 0.49 : α) ≤ kPI * 0.49 := by
  norm_num [kPI]

/-- The result of `clamp` lies between the bounds when these are in order. -/
theorem clamp_mem (v lo hi : α) (h : lo ≤ hi) : lo ≤ clamp v lo hi ∧ clamp v lo hi ≤ hi := by
  unfold clamp
  split_ifs with h1 h2
  · exact ⟨le_refl _, h⟩
  · exact ⟨h, le_refl _⟩
  · exact ⟨not_lt.mp h1, not_lt.mp h2⟩

/-- The camera rotation at the end of a frame is what the widget `Rot` makes of the rotation
after the right-drag step. -/
theorem frame_camRot (dik : KeyCodes) (st : LoopState α) (inp : FrameInput α) :
    (frame dik st inp).camRot =
      inp.uiRot (if inp.pressMouse1 then
        ⟨clamp (st.camRot.x + ((inp.mouseY - st.prevMouseY : Int) : α) * rotSpd)
            (-kPI * 0.49) (kPI * 0.49),
          st.camRot.y + ((inp.mouseX - st.prevMouseX : Int) : α) * rotSpd, st.camRot.z⟩
      else st.camRot) := by
  unfold frame
  cases inp.pressMouse1 <;> simp

/-- One frame keeps the pitch in the clamp range when the widget `Rot` does. -/
theorem frame_pitch_aux (dik : KeyCodes) (st : LoopState α) (inp : FrameInput α)
    (hst : -kPI * 0.49 ≤ st.camRot.x ∧ st.camRot.x ≤ kPI * 0.49)
    (hui : ∀ r : Vector3 α, (-kPI * 0.49 ≤ r.x ∧ r.x ≤ kPI * 0.49) →
      (-kPI * 0.49 ≤ (inp.uiRot r).x ∧ (inp.uiRot r).x ≤ kPI * 0.49)) :
    -kPI * 0.49 ≤ (frame dik st inp).camRot.x ∧ (frame dik st inp).camRot.x ≤ kPI * 0.49 := by
  rw [frame_camRot]
  apply hui
  split_ifs
  · exact clamp_mem _ _ _ pitch_bounds
  · exact hst

/-- The loop keeps the pitch in the clamp range, from any state inside it, when every widget
`Rot` does. -/
theorem runLoop_pitch_aux (dik : KeyCodes) (inputs : List (FrameInput α)) :
    ∀ st : LoopState α, (-kPI * 0.49 ≤ st.camRot.x ∧ st.camRot.x ≤ kPI * 0.49) →
    (∀ inp ∈ inputs, ∀ r : Vector3 α, (-kPI * 0.49 ≤ r.x ∧ r.x ≤ kPI * 0.49) →
      (-kPI * 0.49 ≤ (inp.uiRot r).x ∧ (inp.uiRot r).x ≤ kPI * 0.49)) →
    (-kPI * 0.49 ≤ (runLoop dik st inputs).camRot.x ∧
      (runLoop dik st inputs).camRot.x ≤ kPI * 0.49) := by
  induction inputs with
  | nil => intro st hst _; exact hst
  | cons inp rest ih =>
    intro st hst hui
    have hf := frame_pitch_aux dik st inp hst (hui inp (List.mem_cons_self _ _))
    unfold runLoop
    split_ifs
    · exact hst
    · exact hf
    · exact ih _ hf (fun i hi => hui i (List.mem_cons_of_mem _ hi))

/-- Column 3 of `view` is `(0, 0, 0, 1)`: the matrix is affine. -/
theorem view_col3 (cosf sinf : α → α) (c r : Vector3 α) (i : Fin 4) :
    (view cosf sinf c r).m i 3 = if i = 3 then 1 else 0 := by
  fin_cases i <;>
    simp [view, Mul_m, MakeRotateY, MakeRotateX, MakeTranslate, Matrix4x4.set, MakeIdentity_m]

/-- Under `view` the homogeneous component is `1`. -/
theorem Transform_w_view (cosf sinf : α → α) (c r v : Vector3 α) :
    Transform.w v (view cosf sinf c r) = 1 := by
  simp [Transform.w, view_col3]

/-- Under `vp` the homogeneous component is minus the view-space `z`. -/
theorem Transform_w_vp_aux (cosf sinf tanf : α → α) (c r v : Vector3 α) :
    Transform.w v (vp cosf sinf tanf c r) = -(Transform v (view cosf sinf c r)).z := by
  rw [Transform_eq, Transform_w_view]
  simp only [Transform.w, vp, row_Mul, proj, MakePerspectiveFov_m]
  simp

/-- With zero rotation, `cosf 0 = 1` and `sinf 0 = 0`, the view-space `z` of `v` is
`v.z - c.z`. -/
theorem view_z_zero_rot (cosf sinf : α → α) (hc : cosf 0 = 1) (hs : sinf 0 = 0)
    (c v : Vector3 α) :
    (Transform v (view cosf sinf c ⟨0, 0, 0⟩)).z = v.z - c.z := by
  rw [Transform_eq, Transform_w_view]
  simp [view, Mul_m, MakeRotateY, MakeRotateX, MakeTranslate, Matrix4x4.set, MakeIdentity_m,
    hc, hs]
  ring

/-- A frame with only `W` held moves the camera by `moveSpd` along `z`, keeps the rotation and
does not break out of the loop. -/
theorem frame_holdW (st : LoopState α) :
    (frame dinput st holdWInput).camPos = ⟨st.camPos.x, st.camPos.y, st.camPos.z + moveSpd⟩ ∧
      (frame dinput st holdWInput).camRot = st.camRot ∧
      exitCheck dinput (frame dinput st holdWInput) = false := by
  refine ⟨?_, ?_, ?_⟩
  · simp [frame, holdWInput, idleInput, dinput]
  · simp [frame_camRot, holdWInput, idleInput]
  · simp [exitCheck, frame, holdWInput, idleInput, dinput]

/-- After `n` frames with only `W` held the camera has moved by `n * moveSpd` along `z`. -/
theorem runLoop_holdW (n : Nat) :
    ∀ st : LoopState α,
      (runLoop dinput st (List.replicate n holdWInput)).camPos
          = ⟨st.camPos.x, st.camPos.y, st.camPos.z + (n : α) * moveSpd⟩ ∧
        (runLoop dinput st (List.replicate n holdWInput)).camRot = st.camRot := by
  induction n with
  | zero => intro st; simp [runLoop]
  | succ k ih =>
    intro st
    obtain ⟨hp, hr, he⟩ := frame_holdW st
    have hpm : (holdWInput : FrameInput α).processMessage = 0 := rfl
    rw [List.replicate_succ, runLoop]
    simp only [hpm, he, ne_eq, not_true_eq_false, if_false, Bool.false_eq_true]
    obtain ⟨ihp, ihr⟩ := ih (frame dinput st holdWInput)
    rw [ihp, ihr, hp, hr]
    refine ⟨?_, rfl⟩
    simp only [Vector3.mk.injEq, true_and]
    push_cast
    ring

/-- In binary32 a value that is not NaN is at most itself. -/
theorem F32.le_self_aux (a : F32) (h : a ≠ F32.nan) : a ≤ a := by
  cases a with
  | fin n m e =>
    show F32.le _ _ = true
    simp [F32.le]
  | inf n =>
    show F32.le _ _ = true
    cases n <;> rfl
  | nan => exact absurd rfl h

/-- In binary32 `b < a` excludes `a ≤ b`. -/
theorem F32.not_le_of_lt_aux (a b : F32) (h : b < a) : ¬ a ≤ b := by
  change F32.lt b a = true at h
  change ¬ F32.le a b = true
  cases a with
  | fin n1 m1 e1 =>
    cases b with
    | fin n2 m2 e2 =>
      simp only [F32.lt, F32.le, decide_eq_true_eq, not_le] at h ⊢
      rw [min_comm e1 e2]
      exact h
    | inf b => cases b <;> simp_all [F32.lt, F32.le]
    | nan => simp_all [F32.lt, F32.le]
  | inf a =>
    cases b with
    | fin n2 m2 e2 => cases a <;> simp_all [F32.lt, F32.le]
    | inf b => cases a <;> cases b <;> simp_all [F32.lt, F32.le]
    | nan => simp_all [F32.lt, F32.le]
  | nan => cases b <;> simp_all [F32.lt, F32.le]

/-- In binary32 a finite number times `+0` is a zero. -/
theorem F32.fin_mul_zero_aux (n : Bool) (m : Nat) (e : Int) :
    F32.fin n m e * (0 : F32) = F32.fin n 0 0 := by
  show F32.mul (F32.fin n m e) (F32.fin false 0 0) = _
  simp [F32.mul, F32.round]

/-- In binary32 the sum of three zeros and `1` is `1`. -/
theorem F32.zeros_add_one_aux (a b c : Bool) :
    F32.fin a 0 0 + F32.fin b 0 0 + F32.fin c 0 0 + (1 : F32) = 1 := by
  cases a <;> cases b <;> cases c <;> decide

/-- In binary32 the homogeneous component of a finite point under `MakeViewport` is `1`. -/
theorem Transform_w_MakeViewport_F32 (n1 n2 n3 : Bool) (m1 m2 m3 : Nat) (e1 e2 e3 : Int)
    (l t w h minD maxD : F32) :
    Transform.w ⟨F32.fin n1 m1 e1, F32.fin n2 m2 e2, F32.fin n3 m3 e3⟩
      (MakeViewport l t w h minD maxD) = 1 := by
  have h03 : (MakeViewport l t w h minD maxD).m 0 3 = 0 := rfl
  have h13 : (MakeViewport l t w h minD maxD).m 1 3 = 0 := rfl
  have h23 : (MakeViewport l t w h minD maxD).m 2 3 = 0 := rfl
  have h33 : (MakeViewport l t w h minD maxD).m 3 3 = 1 := rfl
  simp only [Transform.w, h03, h13, h23, h33, F32.fin_mul_zero_aux]
  exact F32.zeros_add_one_aux _ _ _

/-- The two tangent spheres written out: their coordinates and radii are `1829 / 2^8`,
`12803 / 2^10` and `9145 / 2^10`. -/
theorem tangent_values :
    tangentA = ⟨⟨F32.fin false 0 0, F32.fin false 0 0, F32.fin false 0 0⟩,
        F32.fin false 1829 (-8)⟩ ∧
      tangentB = ⟨⟨F32.fin false 1829 (-8), F32.fin false 1829 (-8),
        F32.fin false 12803 (-10)⟩, F32.fin false 9145 (-10)⟩ := by
  decide

/-- The unit sphere and its neighbour written out. -/
theorem unit_values :
    unitA = ⟨⟨F32.fin false 0 0, F32.fin false 0 0, F32.fin false 0 0⟩, F32.fin false 1 0⟩ ∧
      nearUnitB = ⟨⟨F32.fin false 1 1, F32.fin false 0 0, F32.fin false 0 0⟩,
        F32.fin false 16777215 (-24)⟩ := by
  decide

/-- C1, counterexample: in binary32 the result is not the exact inequality, in either
direction.  For the spheres `tangentA`, `tangentB` the exact squared distance is at most (equal
to) the exact squared radius sum, yet the code computes `258.41193 <= 258.41190` and returns
false; for `unitA`, `nearUnitB` the exact squared distance `4` exceeds the exact squared radius
sum, yet the radius sum rounds to `2` and the code returns true. -/
theorem IsCollision_rounding_counterexample :
    ((F32.toRat tangentA.center.x - F32.toRat tangentB.center.x) ^ 2
        + (F32.toRat tangentA.center.y - F32.toRat tangentB.center.y) ^ 2
        + (F32.toRat tangentA.center.z - F32.toRat tangentB.center.z) ^ 2
        ≤ (F32.toRat tangentA.radius + F32.toRat tangentB.radius) ^ 2 ∧
      IsCollision tangentA tangentB = false) ∧
    (¬ ((F32.toRat unitA.center.x - F32.toRat nearUnitB.center.x) ^ 2
        + (F32.toRat unitA.center.y - F32.toRat nearUnitB.center.y) ^ 2
        + (F32.toRat unitA.center.z - F32.toRat nearUnitB.center.z) ^ 2
        ≤ (F32.toRat unitA.radius + F32.toRat nearUnitB.radius) ^ 2) ∧
      IsCollision unitA nearUnitB = true) := by
  refine ⟨⟨?_, by decide⟩, ⟨?_, by decide⟩⟩
  · rw [tangent_values.1, tangent_values.2]
    norm_num [F32.toRat]
  · rw [unit_values.1, unit_values.2]
    norm_num [F32.toRat]

/-- C1, amended: `IsCollision s1 s2` is true exactly when the squared distance of the centres as
the code computes it, `dx*dx + dy*dy + dz*dz` with `d = c1 - c2` and every operation rounded to
binary32, is at most `rSum * rSum` computed likewise from the rounded `rSum = r1 + r2`; over
exact arithmetic that is `(c1.x-c2.x)^2 + (c1.y-c2.y)^2 + (c1.z-c2.z)^2 ≤ (r1 + r2)^2`, for all
centres and all radii. -/
theorem IsCollision_iff_sq_dist_le (s1 s2 : Sphere α) (t1 t2 : Sphere F32) :
    (IsCollision t1 t2 = true ↔
      (t1.center.x - t2.center.x) * (t1.center.x - t2.center.x)
          + (t1.center.y - t2.center.y) * (t1.center.y - t2.center.y)
          + (t1.center.z - t2.center.z) * (t1.center.z - t2.center.z)
        ≤ (t1.radius + t2.radius) * (t1.radius + t2.radius)) ∧
    (IsCollision s1 s2 = true ↔
      (s1.center.x - s2.center.x) ^ 2 + (s1.center.y - s2.center.y) ^ 2
          + (s1.center.z - s2.center.z) ^ 2
        ≤ (s1.radius + s2.radius) ^ 2) := by
  constructor
  · simp only [IsCollision, LengthSq, Dot, Subtract, decide_eq_true_eq]
  · simp only [IsCollision, LengthSq, Dot, Subtract, decide_eq_true_eq, sq]

/-- C2: the collision test is symmetric, `IsCollision A B = IsCollision B A`. -/
theorem IsCollision_symm (A B : Sphere α) : IsCollision A B = IsCollision B A := by
  have hd : LengthSq (Subtract A.center B.center) = LengthSq (Subtract B.center A.center) := by
    simp only [LengthSq, Dot, Subtract]
    ring
  have hr : (A.radius + B.radius) * (A.radius + B.radius)
      = (B.radius + A.radius) * (B.radius + A.radius) := by
    ring
  simp only [IsCollision, hd, hr]

/-- C3: every sphere collides with itself, `IsCollision A A = true`. -/
theorem IsCollision_self (A : Sphere α) : IsCollision A A = true := by
  have hd : LengthSq (Subtract A.center A.center) = 0 := by
    simp [LengthSq, Dot, Subtract]
  simp only [IsCollision, hd, decide_eq_true_eq]
  exact mul_self_nonneg _

/-- C4, counterexample: the spheres `tangentA`, `tangentB` are exactly tangent (the exact
distance of the centres is the exact radius sum, `16.0751953125`), and also as the code computes
them (`Length` and the radius sum are both `16.0751953125` in binary32), yet `IsCollision`
returns false: the squared distance rounds to `258.41193`, the squared sum to `258.41190`. -/
theorem IsCollision_tangent_counterexample :
    ((F32.toRat tangentA.center.x - F32.toRat tangentB.center.x) ^ 2
        + (F32.toRat tangentA.center.y - F32.toRat tangentB.center.y) ^ 2
        + (F32.toRat tangentA.center.z - F32.toRat tangentB.center.z) ^ 2
        = (F32.toRat tangentA.radius + F32.toRat tangentB.radius) ^ 2 ∧
      0 ≤ F32.toRat tangentA.radius + F32.toRat tangentB.radius) ∧
    Length F32.sqrt (Subtract tangentA.center tangentB.center)
      = tangentA.radius + tangentB.radius ∧
    tangentA.radius + tangentB.radius = 16.0751953125 ∧
    LengthSq (Subtract tangentA.center tangentB.center) = 258.41192626953125 ∧
    (tangentA.radius + tangentB.radius) * (tangentA.radius + tangentB.radius)
      = 258.411895751953125 ∧
    IsCollision tangentA tangentB = false := by
  refine ⟨?_, by decide, by decide, by decide, by decide, by decide⟩
  rw [tangent_values.1, tangent_values.2]
  norm_num [F32.toRat]

/-- C4, amended: over exact arithmetic exact tangency is a collision: when the distance of the
centres, `Length (Subtract s1.center s2.center)`, equals `s1.radius + s2.radius`,
`IsCollision s1 s2` is true.  In binary32 the boundary is inclusive in the squared numbers that
the code compares: when the computed squared distance equals the computed `rSum * rSum` (and
is not NaN), `IsCollision` is true.  For centres `(0,0,0)` and `(2,0,0)` with both radii `1`
the result is true over exact arithmetic and in binary32. -/
theorem IsCollision_tangent (sqrtf : α → α) (hsqrt : SqrtSpec sqrtf) (s1 s2 : Sphere α)
    (t1 t2 : Sphere F32)
    (htan : Length sqrtf (Subtract s1.center s2.center) = s1.radius + s2.radius) :
    IsCollision s1 s2 = true ∧
      (LengthSq (Subtract t1.center t2.center) ≠ F32.nan →
        LengthSq (Subtract t1.center t2.center)
          = (t1.radius + t2.radius) * (t1.radius + t2.radius) →
        IsCollision t1 t2 = true) ∧
      IsCollision (⟨⟨0, 0, 0⟩, 1⟩ : Sphere α) ⟨⟨2, 0, 0⟩, 1⟩ = true ∧
      IsCollision (⟨⟨0, 0, 0⟩, 1⟩ : Sphere F32) ⟨⟨2, 0, 0⟩, 1⟩ = true := by
  refine ⟨?_, ?_, ?_, by decide⟩
  · have hsq := (Length_spec hsqrt (Subtract s1.center s2.center)).2
    rw [htan] at hsq
    simp only [IsCollision, decide_eq_true_eq]
    exact le_of_eq hsq.symm
  · intro hnan heq
    simp only [IsCollision, decide_eq_true_eq]
    rw [← heq]
    exact F32.le_self_aux _ hnan
  · simp only [IsCollision, LengthSq, Dot, Subtract, decide_eq_true_eq]
    norm_num

/-- Witness of C4: over the reals and in binary32, centres `(0,0,0)` and `(2,0,0)`, radii `1`
and `1`; in binary32 the computed squared distance and the computed `rSum * rSum` are both
`4`. -/
theorem IsCollision_tangent_witness :
    SqrtSpec Real.sqrt ∧
      Length Real.sqrt (Subtract (⟨0, 0, 0⟩ : Vector3 ℝ) ⟨2, 0, 0⟩) = 1 + 1 ∧
      LengthSq (Subtract (⟨0, 0, 0⟩ : Vector3 F32) ⟨2, 0, 0⟩) ≠ F32.nan ∧
      LengthSq (Subtract (⟨0, 0, 0⟩ : Vector3 F32) ⟨2, 0, 0⟩) = ((1 : F32) + 1) * (1 + 1) ∧
      IsCollision (⟨⟨0, 0, 0⟩, 1⟩ : Sphere ℝ) ⟨⟨2, 0, 0⟩, 1⟩ = true ∧
      IsCollision (⟨⟨0, 0, 0⟩, 1⟩ : Sphere F32) ⟨⟨2, 0, 0⟩, 1⟩ = true :=
  have h : Length Real.sqrt (Subtract (⟨0, 0, 0⟩ : Vector3 ℝ) ⟨2, 0, 0⟩) = 1 + 1 := by
    rw [Length_real_axis 2 (by norm_num)]; norm_num
  have hnan : LengthSq (Subtract (⟨0, 0, 0⟩ : Vector3 F32) ⟨2, 0, 0⟩) ≠ F32.nan := by decide
  have heq : LengthSq (Subtract (⟨0, 0, 0⟩ : Vector3 F32) ⟨2, 0, 0⟩)
      = ((1 : F32) + 1) * (1 + 1) := by decide
  have hthm := IsCollision_tangent Real.sqrt SqrtSpec_real ⟨⟨0, 0, 0⟩, 1⟩ ⟨⟨2, 0, 0⟩, 1⟩
    (⟨⟨0, 0, 0⟩, 1⟩ : Sphere F32) ⟨⟨2, 0, 0⟩, 1⟩ h
  ⟨SqrtSpec_real, h, hnan, heq, hthm.1, hthm.2.1 hnan heq⟩

/-- C5, counterexample: the spheres `unitA`, `nearUnitB` have non-negative radii `1` and
`1 - 2^-24` and centres at distance `2`, strictly more than the exact radius sum `2 - 2^-24`;
in binary32 the radius sum rounds to `2`, the code compares `4 <= 4` and returns true. -/
theorem IsCollision_separated_counterexample :
    (0 ≤ F32.toRat unitA.radius ∧ 0 ≤ F32.toRat nearUnitB.radius ∧
      F32.toRat nearUnitB.center.x - F32.toRat unitA.center.x = 2 ∧
      F32.toRat nearUnitB.center.y - F32.toRat unitA.center.y = 0 ∧
      F32.toRat nearUnitB.center.z - F32.toRat unitA.center.z = 0 ∧
      F32.toRat unitA.radius + F32.toRat nearUnitB.radius < 2) ∧
    unitA.radius + nearUnitB.radius = 2 ∧
    Length F32.sqrt (Subtract unitA.center nearUnitB.center) = 2 ∧
    IsCollision unitA nearUnitB = true := by
  refine ⟨?_, by decide, by decide, by decide⟩
  rw [unit_values.1, unit_values.2]
  norm_num [F32.toRat]

/-- C5, amended: over exact arithmetic separated spheres do not collide: with non-negative
radii, when the distance of the centres is strictly greater than `s1.radius + s2.radius`,
`IsCollision s1 s2` is false.  In binary32 the result is false whenever the computed
`rSum * rSum` is strictly less than the computed squared distance.  For centres `(0,0,0)` and
`(3,0,0)` with both radii `1` the result is false over exact arithmetic and in binary32. -/
theorem IsCollision_separated (sqrtf : α → α) (hsqrt : SqrtSpec sqrtf) (s1 s2 : Sphere α)
    (t1 t2 : Sphere F32)
    (hr1 : 0 ≤ s1.radius) (hr2 : 0 ≤ s2.radius)
    (hsep : s1.radius + s2.radius < Length sqrtf (Subtract s1.center s2.center)) :
    IsCollision s1 s2 = false ∧
      ((t1.radius + t2.radius) * (t1.radius + t2.radius)
          < LengthSq (Subtract t1.center t2.center) →
        IsCollision t1 t2 = false) ∧
      IsCollision (⟨⟨0, 0, 0⟩, 1⟩ : Sphere α) ⟨⟨3, 0, 0⟩, 1⟩ = false ∧
      IsCollision (⟨⟨0, 0, 0⟩, 1⟩ : Sphere F32) ⟨⟨3, 0, 0⟩, 1⟩ = false := by
  refine ⟨?_, ?_, ?_, by decide⟩
  · obtain ⟨_, hsq⟩ := Length_spec hsqrt (Subtract s1.center s2.center)
    have hr : 0 ≤ s1.radius + s2.radius := add_nonneg hr1 hr2
    have hlt := mul_self_lt_mul_self hr hsep
    rw [hsq] at hlt
    simp only [IsCollision, decide_eq_false_iff_not, not_le]
    exact hlt
  · intro hlt
    simp only [IsCollision, decide_eq_false_iff_not]
    exact F32.not_le_of_lt_aux _ _ hlt
  · simp only [IsCollision, LengthSq, Dot, Subtract, decide_eq_false_iff_not, not_le]
    norm_num

/-- Witness of C5: over the reals and in binary32, centres `(0,0,0)` and `(3,0,0)`, radii `1`
and `1`; in binary32 the computed `rSum * rSum` is `4` and the computed squared distance is
`9`. -/
theorem IsCollision_separated_witness :
    SqrtSpec Real.sqrt ∧ (0 : ℝ) ≤ 1 ∧
      (1 : ℝ) + 1 < Length Real.sqrt (Subtract (⟨0, 0, 0⟩ : Vector3 ℝ) ⟨3, 0, 0⟩) ∧
      ((1 : F32) + 1) * (1 + 1) < LengthSq (Subtract (⟨0, 0, 0⟩ : Vector3 F32) ⟨3, 0, 0⟩) ∧
      IsCollision (⟨⟨0, 0, 0⟩, 1⟩ : Sphere ℝ) ⟨⟨3, 0, 0⟩, 1⟩ = false ∧
      IsCollision (⟨⟨0, 0, 0⟩, 1⟩ : Sphere F32) ⟨⟨3, 0, 0⟩, 1⟩ = false :=
  have h : (1 : ℝ) + 1 < Length Real.sqrt (Subtract (⟨0, 0, 0⟩ : Vector3 ℝ) ⟨3, 0, 0⟩) := by
    rw [Length_real_axis 3 (by norm_num)]
    norm_num
  have hlt : ((1 : F32) + 1) * (1 + 1)
      < LengthSq (Subtract (⟨0, 0, 0⟩ : Vector3 F32) ⟨3, 0, 0⟩) := by decide
  have hthm := IsCollision_separated Real.sqrt SqrtSpec_real ⟨⟨0, 0, 0⟩, 1⟩ ⟨⟨3, 0, 0⟩, 1⟩
    (⟨⟨0, 0, 0⟩, 1⟩ : Sphere F32) ⟨⟨3, 0, 0⟩, 1⟩ zero_le_one zero_le_one h
  ⟨SqrtSpec_real, zero_le_one, h, hlt, hthm.1, hthm.2.1 hlt⟩

/-- C6, counterexample: for the spheres `tangentA`, `tangentB`, with non-negative radii, the
code's `Length (Subtract ..)` is `16.0751953125` and so is its radius sum, so the distance
comparison `Length <= rSum` holds, yet `IsCollision` returns false. -/
theorem IsCollision_iff_Length_le_counterexample :
    (0 : F32) ≤ tangentA.radius ∧ (0 : F32) ≤ tangentB.radius ∧
      Length F32.sqrt (Subtract tangentA.center tangentB.center) = 16.0751953125 ∧
      tangentA.radius + tangentB.radius = 16.0751953125 ∧
      Length F32.sqrt (Subtract tangentA.center tangentB.center)
        ≤ tangentA.radius + tangentB.radius ∧
      IsCollision tangentA tangentB = false := by
  decide

/-- C6, amended: over exact arithmetic, with an exact square root, the squared comparison
decides the distance comparison: with non-negative radii, `IsCollision s1 s2` is true exactly
when `Length (Subtract s1.center s2.center) ≤ s1.radius + s2.radius`.  In binary32 the two
comparisons agree on the pairs with centres `(0,0,0)`, `(2,0,0)` and `(0,0,0)`, `(3,0,0)` and
radii `1`, and on the two spheres of the program as initialised. -/
theorem IsCollision_iff_Length_le (sqrtf : α → α) (hsqrt : SqrtSpec sqrtf) (s1 s2 : Sphere α)
    (hr1 : 0 ≤ s1.radius) (hr2 : 0 ≤ s2.radius) :
    (IsCollision s1 s2 = true ↔
      Length sqrtf (Subtract s1.center s2.center) ≤ s1.radius + s2.radius) ∧
    (IsCollision (⟨⟨0, 0, 0⟩, 1⟩ : Sphere F32) ⟨⟨2, 0, 0⟩, 1⟩ = true ∧
      Length F32.sqrt (Subtract (⟨0, 0, 0⟩ : Vector3 F32) ⟨2, 0, 0⟩) ≤ 1 + 1) ∧
    (IsCollision (⟨⟨0, 0, 0⟩, 1⟩ : Sphere F32) ⟨⟨3, 0, 0⟩, 1⟩ = false ∧
      ¬ Length F32.sqrt (Subtract (⟨0, 0, 0⟩ : Vector3 F32) ⟨3, 0, 0⟩) ≤ 1 + 1) ∧
    (IsCollision (WinMain.sphere1 : Sphere F32) WinMain.sphere2 = false ∧
      ¬ Length F32.sqrt (Subtract (WinMain.sphere1 : Sphere F32).center
          (WinMain.sphere2 : Sphere F32).center)
        ≤ (WinMain.sphere1 : Sphere F32).radius + (WinMain.sphere2 : Sphere F32).radius) := by
  refine ⟨?_, by decide, by decide, by decide⟩
  obtain ⟨h0, hsq⟩ := Length_spec hsqrt (Subtract s1.center s2.center)
  have hr : 0 ≤ s1.radius + s2.radius := add_nonneg hr1 hr2
  simp only [IsCollision, decide_eq_true_eq]
  rw [← hsq]
  exact (mul_self_le_mul_self_iff h0 hr).symm

/-- Witness of C6 over the reals: centres `(0,0,0)` and `(3,0,0)`, radii `1` and `1`, where
both sides of the equivalence are false. -/
theorem IsCollision_iff_Length_le_witness :
    SqrtSpec Real.sqrt ∧ (0 : ℝ) ≤ 1 ∧
      (IsCollision (⟨⟨0, 0, 0⟩, 1⟩ : Sphere ℝ) ⟨⟨3, 0, 0⟩, 1⟩ = true ↔
        Length Real.sqrt (Subtract (⟨0, 0, 0⟩ : Vector3 ℝ) ⟨3, 0, 0⟩) ≤ 1 + 1) :=
  ⟨SqrtSpec_real, zero_le_one,
    (IsCollision_iff_Length_le Real.sqrt SqrtSpec_real ⟨⟨0, 0, 0⟩, 1⟩ ⟨⟨3, 0, 0⟩, 1⟩
      zero_le_one zero_le_one).1⟩

/-- C7: `MakeIdentity` is a two-sided identity of `Mul`: `Mul MakeIdentity M = M` and
`Mul M MakeIdentity = M` for every matrix `M`, all sixteen entries being equal. -/
theorem Mul_MakeIdentity (M : Matrix4x4 α) :
    Mul MakeIdentity M = M ∧ Mul M MakeIdentity = M := by
  constructor
  · apply Matrix4x4.ext_entries
    intro i j
    rw [Mul_m]
    fin_cases i <;> simp [MakeIdentity_m]
  · apply Matrix4x4.ext_entries
    intro i j
    rw [Mul_m]
    fin_cases j <;> simp [MakeIdentity_m]

/-- C8: `Transform p MakeIdentity = p` for every point `p`; the homogeneous component `w` is
`1`, so the perspective division changes nothing. -/
theorem Transform_MakeIdentity (p : Vector3 α) :
    Transform.w p (MakeIdentity : Matrix4x4 α) = 1 ∧ Transform p MakeIdentity = p :=
  Transform_id_aux p

/-- C9: `Mul` is associative, `Mul (Mul A B) C = Mul A (Mul B C)` for all matrices, exactly. -/
theorem Mul_associative (A B C : Matrix4x4 α) : Mul (Mul A B) C = Mul A (Mul B C) := by
  apply Matrix4x4.ext_entries
  intro i j
  simp only [Mul_m]
  ring

/-- C10: with camera rotation `(0,0,0)` and camera position `(0,0,0)` the frame loop's `view`
matrix is the identity matrix, and `Transform p view = p` for every world point `p`; of `cosf`
and `sinf` only `cosf 0 = 1` and `sinf 0 = 0` are used. -/
theorem view_zero (cosf sinf : α → α) (hc : cosf 0 = 1) (hs : sinf 0 = 0) (p : Vector3 α) :
    view cosf sinf ⟨0, 0, 0⟩ ⟨0, 0, 0⟩ = MakeIdentity ∧
      Transform p (view cosf sinf ⟨0, 0, 0⟩ ⟨0, 0, 0⟩) = p := by
  have hv : view cosf sinf ⟨0, 0, 0⟩ ⟨0, 0, 0⟩ = MakeIdentity := by
    apply Matrix4x4.ext_entries
    intro i j
    fin_cases i <;> fin_cases j <;>
      simp [view, Mul_m, MakeRotateY, MakeRotateX, MakeTranslate, Matrix4x4.set,
        MakeIdentity_m, hc, hs]
  refine ⟨hv, ?_⟩
  rw [hv]
  exact (Transform_id_aux p).2

/-- Witness of C10 over the reals, with the real cosine and sine and the point `(1,2,3)`. -/
theorem view_zero_witness :
    Real.cos 0 = 1 ∧ Real.sin 0 = 0 ∧
      (view Real.cos Real.sin (⟨0, 0, 0⟩ : Vector3 ℝ) ⟨0, 0, 0⟩ = MakeIdentity ∧
        Transform (⟨1, 2, 3⟩ : Vector3 ℝ) (view Real.cos Real.sin ⟨0, 0, 0⟩ ⟨0, 0, 0⟩)
          = ⟨1, 2, 3⟩) :=
  ⟨Real.cos_zero, Real.sin_zero,
    view_zero Real.cos Real.sin Real.cos_zero Real.sin_zero ⟨1, 2, 3⟩⟩

set_option maxRecDepth 4000 in
/-- C11, counterexample.  In binary32, with `l = 16.836874` and the non-negative width
`w = 1993.578`, the normalized point `x = -1` is sent to `16.836853`, left of `l`: the code adds
`-1 * (w * 0.5)` to the rounded `l + w * 0.5`.  And in exact arithmetic, with the negative width
and height `w = h = -2` (and `l = t = 0`), the point `(0,0,0)` is sent to `x = -1`, which does
not lie in `[l, l + w] = [0, -2]`. -/
theorem MakeViewport_rectangle_counterexample :
    ((0 : F32) ≤ 1993.578 ∧ (0 : F32) ≤ 720 ∧ (-1 : F32) ≤ -1 ∧ (-1 : F32) ≤ 1 ∧
      (Transform (⟨-1, 0, 0⟩ : Vector3 F32) (MakeViewport 16.836874 0 1993.578 720 0 1)).x
        = 16.836853 ∧
      (Transform (⟨-1, 0, 0⟩ : Vector3 F32) (MakeViewport 16.836874 0 1993.578 720 0 1)).x
        < 16.836874) ∧
    ((-1 : ℚ) ≤ 0 ∧ (0 : ℚ) ≤ 1 ∧
      (Transform (⟨0, 0, 0⟩ : Vector3 ℚ) (MakeViewport 0 0 (-2) (-2) 0 1)).x = -1 ∧
      ¬ (0 ≤ (Transform (⟨0, 0, 0⟩ : Vector3 ℚ) (MakeViewport 0 0 (-2) (-2) 0 1)).x ∧
          (Transform (⟨0, 0, 0⟩ : Vector3 ℚ) (MakeViewport 0 0 (-2) (-2) 0 1)).x
            ≤ 0 + (-2))) := by
  refine ⟨by decide, ?_⟩
  rw [Transform_MakeViewport_aux]
  norm_num

/-- C11, amended: over exact arithmetic, for every point and all parameters the homogeneous
component under `MakeViewport l t w h minD maxD` is `1` and `Transform (x,y,z)` is
`(l + (x+1)*w/2, t + (y+1)*h/2, minD + z*(maxD-minD))`; depth `0` goes to `minD` and depth `1`
to `maxD`; and when `w` and `h` are non-negative, `x` and `y` in `[-1, 1]` land in
`[l, l + w]` and `[t, t + h]`.  In binary32 the homogeneous component of every finite point is
`1` for all parameters (no division by zero), and the screen viewport of the frame loop sends
`(-1, -1, 0)` to `(0, 0, 0)` and `(1, 1, 1)` to `(1280, 720, 1)`. -/
theorem Transform_MakeViewport (x y z l t w h minD maxD : α) (n1 n2 n3 : Bool)
    (m1 m2 m3 : Nat) (e1 e2 e3 : Int) (l32 t32 w32 h32 minD32 maxD32 : F32) :
    Transform.w ⟨x, y, z⟩ (MakeViewport l t w h minD maxD) = 1 ∧
      Transform ⟨x, y, z⟩ (MakeViewport l t w h minD maxD)
        = ⟨l + (x + 1) * w / 2, t + (y + 1) * h / 2, minD + z * (maxD - minD)⟩ ∧
      (Transform ⟨x, y, 0⟩ (MakeViewport l t w h minD maxD)).z = minD ∧
      (Transform ⟨x, y, 1⟩ (MakeViewport l t w h minD maxD)).z = maxD ∧
      (0 ≤ w → 0 ≤ h → -1 ≤ x → x ≤ 1 → -1 ≤ y → y ≤ 1 →
        l ≤ (Transform ⟨x, y, z⟩ (MakeViewport l t w h minD maxD)).x ∧
        (Transform ⟨x, y, z⟩ (MakeViewport l t w h minD maxD)).x ≤ l + w ∧
        t ≤ (Transform ⟨x, y, z⟩ (MakeViewport l t w h minD maxD)).y ∧
        (Transform ⟨x, y, z⟩ (MakeViewport l t w h minD maxD)).y ≤ t + h) ∧
      Transform.w ⟨F32.fin n1 m1 e1, F32.fin n2 m2 e2, F32.fin n3 m3 e3⟩
        (MakeViewport l32 t32 w32 h32 minD32 maxD32) = 1 ∧
      Transform (⟨-1, -1, 0⟩ : Vector3 F32) vpm = ⟨0, 0, 0⟩ ∧
      Transform (⟨1, 1, 1⟩ : Vector3 F32) vpm = ⟨1280, 720, 1⟩ := by
  refine ⟨Transform_w_MakeViewport _ l t w h minD maxD,
    Transform_MakeViewport_aux _ _ _ _ _ _ _ _ _, ?_, ?_, ?_,
    Transform_w_MakeViewport_F32 _ _ _ _ _ _ _ _ _ _ _ _ _ _ _, by decide, by decide⟩
  · rw [Transform_MakeViewport_aux]
    simp
  · rw [Transform_MakeViewport_aux]
    simp
  · intro hw hh hx1 hx2 hy1 hy2
    rw [Transform_MakeViewport_aux]
    have hxw : 0 ≤ (x + 1) * w := mul_nonneg (by linarith) hw
    have hxw2 : 0 ≤ (1 - x) * w := mul_nonneg (by linarith) hw
    have hyh : 0 ≤ (y + 1) * h := mul_nonneg (by linarith) hh
    have hyh2 : 0 ≤ (1 - y) * h := mul_nonneg (by linarith) hh
    refine ⟨?_, ?_, ?_, ?_⟩ <;> simp only <;> linarith

/-- Witness of C11 (amended): the screen viewport `MakeViewport 0 0 1280 720 0 1` of the frame
loop and the normalized point `(1/2, -1/2, 1/4)`, sent to the pixel `(960, 180)`; in binary32
the same viewport and point, with homogeneous component `1`. -/
theorem Transform_MakeViewport_witness :
    Transform (⟨1 / 2, -1 / 2, 1 / 4⟩ : Vector3 ℚ) (MakeViewport 0 0 1280 720 0 1)
        = ⟨960, 180, 1 / 4⟩ ∧
      (0 : ℚ)
        ≤ (Transform (⟨1 / 2, -1 / 2, 1 / 4⟩ : Vector3 ℚ) (MakeViewport 0 0 1280 720 0 1)).x ∧
      (Transform (⟨1 / 2, -1 / 2, 1 / 4⟩ : Vector3 ℚ) (MakeViewport 0 0 1280 720 0 1)).x
        ≤ 0 + 1280 ∧
      Transform.w ⟨F32.fin false 1 (-1), F32.fin true 1 (-1), F32.fin false 1 (-2)⟩
        (MakeViewport (0 : F32) 0 1280 720 0 1) = 1 := by
  have h := Transform_MakeViewport (1 / 2 : ℚ) (-1 / 2) (1 / 4) 0 0 1280 720 0 1
    false true false 1 1 1 (-1) (-1) (-2) 0 0 1280 720 0 1
  have hr := h.2.2.2.2.1 (by norm_num) (by norm_num) (by norm_num) (by norm_num) (by norm_num)
    (by norm_num)
  refine ⟨?_, hr.1, hr.2.1, h.2.2.2.2.2.1⟩
  rw [h.2.1]
  norm_num

set_option maxRecDepth 4000 in
/-- C15, counterexample: in binary32, with camera position `(1, 2, 3)`, pitch and yaw `0.5` and
the point `(2, 1, 1)`, `Transform` by the product matrix gives `z = -1.8678033` and the three
`Transform`s in a row give `z = -1.8678035`. -/
theorem Transform_view_order_counterexample :
    Transform (⟨2, 1, 1⟩ : Vector3 F32)
        (Mul (MakeRotateY cosfTab sinfTab (-0.5))
          (Mul (MakeRotateX cosfTab sinfTab (-0.5)) (MakeTranslate ⟨-1, -2, -3⟩)))
      = ⟨0.27573955, -0.24198425, -1.8678033⟩ ∧
    Transform (Transform (Transform (⟨2, 1, 1⟩ : Vector3 F32)
        (MakeRotateY cosfTab sinfTab (-0.5))) (MakeRotateX cosfTab sinfTab (-0.5)))
        (MakeTranslate ⟨-1, -2, -3⟩)
      = ⟨0.27573955, -0.24198425, -1.8678035⟩ ∧
    (⟨0.27573955, -0.24198425, -1.8678033⟩ : Vector3 F32)
      ≠ ⟨0.27573955, -0.24198425, -1.8678035⟩ := by
  decide

set_option maxRecDepth 4000 in
/-- C15, amended: over exact arithmetic the `view` matrix applies its factors in the written
order under the row-vector convention: `Transform p (Mul (MakeRotateY (-yaw))
(Mul (MakeRotateX (-pitch)) (MakeTranslate (-c))))` is `p` transformed by `MakeRotateY (-yaw)`,
then by `MakeRotateX (-pitch)`, then by `MakeTranslate (-c)`, for every camera position `c`,
every pitch and yaw and every point `p`.  In both readings the frame loop's `view` is that
product, and in binary32, in the initial camera pose, both sides send the centre of `sphere1`
to `(-1.5, -1.5, 8)`. -/
theorem Transform_view_order (cosf sinf : α → α) (c p : Vector3 α) (pitch yaw : α)
    (cosf32 sinf32 : F32 → F32) (c32 : Vector3 F32) (pitch32 yaw32 : F32) :
    Transform p (Mul (MakeRotateY cosf sinf (-yaw))
        (Mul (MakeRotateX cosf sinf (-pitch)) (MakeTranslate ⟨-c.x, -c.y, -c.z⟩)))
      = Transform (Transform (Transform p (MakeRotateY cosf sinf (-yaw)))
          (MakeRotateX cosf sinf (-pitch))) (MakeTranslate ⟨-c.x, -c.y, -c.z⟩) ∧
      view cosf sinf c ⟨pitch, yaw, 0⟩ = Mul (MakeRotateY cosf sinf (-yaw))
        (Mul (MakeRotateX cosf sinf (-pitch)) (MakeTranslate ⟨-c.x, -c.y, -c.z⟩)) ∧
      view cosf32 sinf32 c32 ⟨pitch32, yaw32, 0⟩ = Mul (MakeRotateY cosf32 sinf32 (-yaw32))
        (Mul (MakeRotateX cosf32 sinf32 (-pitch32))
          (MakeTranslate ⟨-c32.x, -c32.y, -c32.z⟩)) ∧
      Transform (WinMain.sphere1 : Sphere F32).center
          (view cosfTab sinfTab (WinMain.init : LoopState F32).camPos
            (WinMain.init : LoopState F32).camRot)
        = ⟨-1.5, -1.5, 8⟩ ∧
      Transform (Transform (Transform (WinMain.sphere1 : Sphere F32).center
          (MakeRotateY cosfTab sinfTab (-(WinMain.init : LoopState F32).camRot.y)))
          (MakeRotateX cosfTab sinfTab (-(WinMain.init : LoopState F32).camRot.x)))
          (MakeTranslate ⟨-(WinMain.init : LoopState F32).camPos.x,
            -(WinMain.init : LoopState F32).camPos.y, -(WinMain.init : LoopState F32).camPos.z⟩)
        = ⟨-1.5, -1.5, 8⟩ := by
  have h1 : Transform.w p (MakeRotateY cosf sinf (-yaw)) ≠ 0 := by
    simp [Transform.w, MakeRotateY, Matrix4x4.set, MakeIdentity_m]
  have h2 : Transform.w (Transform p (MakeRotateY cosf sinf (-yaw)))
      (MakeRotateX cosf sinf (-pitch)) ≠ 0 := by
    simp [Transform.w, MakeRotateX, Matrix4x4.set, MakeIdentity_m]
  refine ⟨?_, rfl, rfl, by decide, by decide⟩
  rw [Transform_Mul_aux _ _ _ h2, Transform_Mul_aux _ _ _ h1]

set_option maxRecDepth 4000 in
/-- C16, counterexample: in binary32, with the field of view and aspect of the frame loop, the
point `(0, 0, -n)` has depth `-7.4505806e-8`, not `0`, for `n = 0.2`, `f = 50`, and the point
`(0, 0, -f)` has depth `0.99999994`, not `1`, for `n = 1`, `f = 7`; and with all four constants
of the frame loop the entry `m[0][0]`, computed as `(1 / tanf(fovY * 0.5)) / aspect`, is
`2.4576695`, while `1 / (aspect * tanf(fovY / 2))` is `2.4576693`. -/
theorem MakePerspectiveFov_depth_counterexample :
    ((0.2 : F32) ≠ 50 ∧ (0.2 : F32) ≠ 0 ∧ (50 : F32) ≠ 0 ∧
      (Transform (⟨0, 0, -0.2⟩ : Vector3 F32)
        (MakePerspectiveFov tanfTab 0.45 (1280 / 720) 0.2 50)).z = -7.4505806e-8 ∧
      (-7.4505806e-8 : F32) ≠ 0) ∧
    ((1 : F32) ≠ 7 ∧ (1 : F32) ≠ 0 ∧ (7 : F32) ≠ 0 ∧
      (Transform (⟨0, 0, -7⟩ : Vector3 F32)
        (MakePerspectiveFov tanfTab 0.45 (1280 / 720) 1 7)).z = 0.99999994 ∧
      (0.99999994 : F32) ≠ 1) ∧
    ((MakePerspectiveFov tanfTab 0.45 (1280 / 720) 0.1 100).m 0 0 = 2.4576695 ∧
      (1 : F32) / ((1280 / 720) * tanfTab (0.45 / 2)) = 2.4576693 ∧
      (2.4576695 : F32) ≠ 2.4576693) := by
  decide

set_option maxRecDepth 4000 in
/-- C16, amended: over exact arithmetic, for `n ≠ f`, `n ≠ 0`, `f ≠ 0`, under
`MakePerspectiveFov fovY aspect n f` the homogeneous component of `(x,y,z)` is `-z`; a point
with `z = -n` has `w = n ≠ 0` and depth `0`, a point with `z = -f` has `w = f ≠ 0` and depth
`1`; and the entries are `m[0][0] = 1/(aspect*tan(fovY/2))`, `m[1][1] = 1/tan(fovY/2)`,
`m[2][2] = f/(n-f)`, `m[2][3] = -1`, `m[3][2] = n*f/(n-f)` and `0` everywhere else.  In binary32,
under the matrix `proj` of the frame loop (`n = 0.1`, `f = 100`) the point `(1, 2, -0.1)` has
`w = 0.1` and depth `0`, and the point `(1, 2, -100)` has `w = 100` and depth `1`. -/
theorem MakePerspectiveFov_spec (tanf : α → α) (fovY aspect n f x y z : α)
    (hnf : n ≠ f) (hn : n ≠ 0) (hf : f ≠ 0) :
    Transform.w ⟨x, y, z⟩ (MakePerspectiveFov tanf fovY aspect n f) = -z ∧
      Transform.w ⟨x, y, -n⟩ (MakePerspectiveFov tanf fovY aspect n f) ≠ 0 ∧
      (Transform ⟨x, y, -n⟩ (MakePerspectiveFov tanf fovY aspect n f)).z = 0 ∧
      Transform.w ⟨x, y, -f⟩ (MakePerspectiveFov tanf fovY aspect n f) ≠ 0 ∧
      (Transform ⟨x, y, -f⟩ (MakePerspectiveFov tanf fovY aspect n f)).z = 1 ∧
      (∀ i j : Fin 4, (MakePerspectiveFov tanf fovY aspect n f).m i j =
        if i = 0 ∧ j = 0 then 1 / (aspect * tanf (fovY / 2))
        else if i = 1 ∧ j = 1 then 1 / tanf (fovY / 2)
        else if i = 2 ∧ j = 2 then f / (n - f)
        else if i = 2 ∧ j = 3 then -1
        else if i = 3 ∧ j = 2 then n * f / (n - f)
        else 0) ∧
      (Transform.w (⟨1, 2, -0.1⟩ : Vector3 F32) (proj tanfTab) = 0.1 ∧
        (Transform (⟨1, 2, -0.1⟩ : Vector3 F32) (proj tanfTab)).z = 0 ∧
        Transform.w (⟨1, 2, -100⟩ : Vector3 F32) (proj tanfTab) = 100 ∧
        (Transform (⟨1, 2, -100⟩ : Vector3 F32) (proj tanfTab)).z = 1) := by
  have hsub : n - f ≠ 0 := sub_ne_zero.mpr hnf
  have hw : ∀ v : Vector3 α, Transform.w v (MakePerspectiveFov tanf fovY aspect n f) = -v.z := by
    intro v
    simp [Transform.w, MakePerspectiveFov_m]
  refine ⟨hw _, ?_, ?_, ?_, ?_, MakePerspectiveFov_m tanf fovY aspect n f, by decide⟩
  · rw [hw]
    simpa using hn
  · rw [Transform_eq]
    have hnum : -(n * (f / (n - f))) + n * f / (n - f) = 0 := by ring
    simp [MakePerspectiveFov_m, hnum]
  · rw [hw]
    simpa using hf
  · rw [Transform_eq, hw]
    have hnum : -(f * (f / (n - f))) + n * f / (n - f) = f := by
      field_simp
      ring
    simp [MakePerspectiveFov_m, hnum, hf]

/-- Witness of C16 over the reals: the constants of the frame loop, `fovY = 0.45`,
`aspect = 1280/720`, `n = 0.1`, `f = 100`, the real tangent, and the point `(1, 2, 3)`. -/
theorem MakePerspectiveFov_spec_witness :
    (0.1 : ℝ) ≠ 100 ∧ (0.1 : ℝ) ≠ 0 ∧ (100 : ℝ) ≠ 0 ∧
      Transform.w (⟨1, 2, 3⟩ : Vector3 ℝ)
          (MakePerspectiveFov Real.tan 0.45 (1280 / 720) 0.1 100)
        = -3 ∧
      (Transform (⟨1, 2, -0.1⟩ : Vector3 ℝ)
        (MakePerspectiveFov Real.tan 0.45 (1280 / 720) 0.1 100)).z = 0 ∧
      (Transform (⟨1, 2, -100⟩ : Vector3 ℝ)
        (MakePerspectiveFov Real.tan 0.45 (1280 / 720) 0.1 100)).z = 1 :=
  have h := MakePerspectiveFov_spec Real.tan 0.45 (1280 / 720) 0.1 100 1 2 3
    (by norm_num) (by norm_num) (by norm_num)
  ⟨by norm_num, by norm_num, by norm_num, h.1, h.2.2.1, h.2.2.2.2.1⟩

set_option maxRecDepth 4000 in
/-- C17, counterexample: in binary32, with `A = diag(1, 1, 1, 3)`, `B = MakeTranslate(0.1, 0, 0)`
and `p = (1, 0, 0)`, both homogeneous components are `3`, the two `Transform`s in a row give
`x = 0.43333334` and the single `Transform` by `Mul A B` gives `x = 0.43333331`; and in the
initial camera pose the grid endpoint `(-4, 0, 4)` has `w = -12` under `vp`, the two-stage
screen mapping gives `y = 622.15137` and the single `Transform` by `Mul vp vpm` gives
`y = 622.1514`. -/
theorem Transform_Mul_counterexample :
    (Transform.w (⟨1, 0, 0⟩ : Vector3 F32) diag3 = 3 ∧
      Transform.w (⟨1, 0, 0⟩ : Vector3 F32) (Mul diag3 (MakeTranslate ⟨0.1, 0, 0⟩)) = 3 ∧
      (3 : F32) ≠ 0 ∧
      Transform (Transform (⟨1, 0, 0⟩ : Vector3 F32) diag3) (MakeTranslate ⟨0.1, 0, 0⟩)
        = ⟨0.43333334, 0, 0⟩ ∧
      Transform (⟨1, 0, 0⟩ : Vector3 F32) (Mul diag3 (MakeTranslate ⟨0.1, 0, 0⟩))
        = ⟨0.43333331, 0, 0⟩ ∧
      (⟨0.43333334, 0, 0⟩ : Vector3 F32) ≠ ⟨0.43333331, 0, 0⟩) ∧
    ((⟨-4, 0, 4⟩ : Vector3 F32) ∈ (DrawGrid.endpoints 0 : List (Vector3 F32)) ∧
      Transform.w (⟨-4, 0, 4⟩ : Vector3 F32)
        (vp cosfTab sinfTab tanfTab (WinMain.init : LoopState F32).camPos
          (WinMain.init : LoopState F32).camRot) = -12 ∧
      (-12 : F32) ≠ 0 ∧
      (Transform (Transform (⟨-4, 0, 4⟩ : Vector3 F32)
        (vp cosfTab sinfTab tanfTab (WinMain.init : LoopState F32).camPos
          (WinMain.init : LoopState F32).camRot)) vpm).y = 622.15137 ∧
      (Transform (⟨-4, 0, 4⟩ : Vector3 F32)
        (Mul (vp cosfTab sinfTab tanfTab (WinMain.init : LoopState F32).camPos
          (WinMain.init : LoopState F32).camRot) vpm)).y = 622.1514 ∧
      (622.15137 : F32) ≠ 622.1514) := by
  decide

set_option maxRecDepth 4000 in
/-- C17, amended: over exact arithmetic, where the homogeneous component of `p` under `A` and
the one under `Mul A B` are non-zero, the second division is defined too and
`Transform (Transform p A) B = Transform p (Mul A B)`; in particular, with `A` the matrix `vp`
and the viewport matrix second, the two-stage screen mapping is the single `Transform` by
`Mul A (MakeViewport ..)`, whose homogeneous component is the one under `A`.  In binary32, in
the initial camera pose, the two-stage screen mapping and the single `Transform` by
`Mul vp vpm` agree on the centres of `sphere1` and `sphere2`. -/
theorem Transform_Mul (A B : Matrix4x4 α) (p : Vector3 α) (l t w h minD maxD : α)
    (hA : Transform.w p A ≠ 0) (hAB : Transform.w p (Mul A B) ≠ 0) :
    Transform.w (Transform p A) B ≠ 0 ∧
      Transform (Transform p A) B = Transform p (Mul A B) ∧
      Transform.w p (Mul A (MakeViewport l t w h minD maxD)) = Transform.w p A ∧
      Transform (Transform p A) (MakeViewport l t w h minD maxD)
        = Transform p (Mul A (MakeViewport l t w h minD maxD)) ∧
      Transform (Transform (WinMain.sphere1 : Sphere F32).center
          (vp cosfTab sinfTab tanfTab (WinMain.init : LoopState F32).camPos
            (WinMain.init : LoopState F32).camRot)) vpm
        = Transform (WinMain.sphere1 : Sphere F32).center
          (Mul (vp cosfTab sinfTab tanfTab (WinMain.init : LoopState F32).camPos
            (WinMain.init : LoopState F32).camRot) vpm) ∧
      Transform (Transform (WinMain.sphere2 : Sphere F32).center
          (vp cosfTab sinfTab tanfTab (WinMain.init : LoopState F32).camPos
            (WinMain.init : LoopState F32).camRot)) vpm
        = Transform (WinMain.sphere2 : Sphere F32).center
          (Mul (vp cosfTab sinfTab tanfTab (WinMain.init : LoopState F32).camPos
            (WinMain.init : LoopState F32).camRot) vpm) := by
  refine ⟨?_, Transform_Mul_aux A B p hA, ?_, Transform_Mul_aux A _ p hA, by decide,
    by decide⟩
  · rw [Transform_w_Mul_aux A B p hA]
    exact div_ne_zero hAB hA
  · have h := Transform_w_Mul_aux A (MakeViewport l t w h minD maxD) p hA
    rw [Transform_w_MakeViewport] at h
    field_simp at h
    exact h.symm

/-- Witness of C17: the point `(5, 6, -1)`, the projection `MakePerspectiveFov` with
`tanf = id`, `fovY = 2`, `aspect = 2`, `n = 1`, `f = 3`, under which `w = 1`, followed by a
translation and by the screen viewport. -/
theorem Transform_Mul_witness :
    Transform.w (⟨5, 6, -1⟩ : Vector3 ℚ) (MakePerspectiveFov id 2 2 1 3) ≠ 0 ∧
      Transform.w (⟨5, 6, -1⟩ : Vector3 ℚ)
        (Mul (MakePerspectiveFov id 2 2 1 3) (MakeTranslate ⟨1, 2, 3⟩)) ≠ 0 ∧
      Transform (Transform (⟨5, 6, -1⟩ : Vector3 ℚ) (MakePerspectiveFov id 2 2 1 3))
          (MakeTranslate ⟨1, 2, 3⟩)
        = Transform ⟨5, 6, -1⟩
            (Mul (MakePerspectiveFov id 2 2 1 3) (MakeTranslate ⟨1, 2, 3⟩)) ∧
      Transform (Transform (⟨5, 6, -1⟩ : Vector3 ℚ) (MakePerspectiveFov id 2 2 1 3))
          (MakeViewport 0 0 1280 720 0 1)
        = Transform ⟨5, 6, -1⟩
            (Mul (MakePerspectiveFov id 2 2 1 3) (MakeViewport 0 0 1280 720 0 1)) :=
  have hA : Transform.w (⟨5, 6, -1⟩ : Vector3 ℚ) (MakePerspectiveFov id 2 2 1 3) ≠ 0 := by
    simp [Transform.w, MakePerspectiveFov_m]
  have hAB : Transform.w (⟨5, 6, -1⟩ : Vector3 ℚ)
      (Mul (MakePerspectiveFov id 2 2 1 3) (MakeTranslate ⟨1, 2, 3⟩)) ≠ 0 := by
    simp [Transform.w, Mul_m, MakePerspectiveFov_m, MakeTranslate, Matrix4x4.set, MakeIdentity_m]
  have h := Transform_Mul (MakePerspectiveFov id 2 2 1 3) (MakeTranslate ⟨1, 2, 3⟩)
    (⟨5, 6, -1⟩ : Vector3 ℚ) 0 0 1280 720 0 1 hA hAB
  ⟨hA, hAB, h.2.1, h.2.2.2.1⟩

set_option maxRecDepth 4000 in
/-- C18, counterexample: in binary32, the spheres with centres `(0,0,0)` and `(3,0,0)` and radii
`1` do not collide, but translated by `t = (1e8, 0, 0)` both centres become `(1e8, 0, 0)`
(`3 + 1e8` rounds to `1e8`) and `IsCollision` returns true. -/
theorem IsCollision_translate_counterexample :
    IsCollision (⟨⟨0, 0, 0⟩, 1⟩ : Sphere F32) ⟨⟨3, 0, 0⟩, 1⟩ = false ∧
      Add (⟨3, 0, 0⟩ : Vector3 F32) ⟨1e8, 0, 0⟩ = ⟨1e8, 0, 0⟩ ∧
      IsCollision (⟨Add ⟨0, 0, 0⟩ ⟨1e8, 0, 0⟩, 1⟩ : Sphere F32)
        ⟨Add ⟨3, 0, 0⟩ ⟨1e8, 0, 0⟩, 1⟩ = true := by
  decide

/-- C18, amended: over exact arithmetic the collision test is invariant under a common
translation: moving both centres by `Add · t` and keeping the radii leaves `IsCollision`
unchanged.  In binary32 it is unchanged whenever the computed difference of the translated
centres is the computed difference of the centres, as for the centres `(0,0,0)`, `(3,0,0)`
moved by `(1, 2, 3)`. -/
theorem IsCollision_translate (s1 s2 : Sphere α) (t : Vector3 α) (t1 t2 : Sphere F32)
    (t32 : Vector3 F32) :
    IsCollision ⟨Add s1.center t, s1.radius⟩ ⟨Add s2.center t, s2.radius⟩
        = IsCollision s1 s2 ∧
      (Subtract (Add t1.center t32) (Add t2.center t32) = Subtract t1.center t2.center →
        IsCollision ⟨Add t1.center t32, t1.radius⟩ ⟨Add t2.center t32, t2.radius⟩
          = IsCollision t1 t2) ∧
      Subtract (Add (⟨0, 0, 0⟩ : Vector3 F32) ⟨1, 2, 3⟩) (Add ⟨3, 0, 0⟩ ⟨1, 2, 3⟩)
        = Subtract ⟨0, 0, 0⟩ ⟨3, 0, 0⟩ ∧
      IsCollision (⟨Add ⟨0, 0, 0⟩ ⟨1, 2, 3⟩, 1⟩ : Sphere F32) ⟨Add ⟨3, 0, 0⟩ ⟨1, 2, 3⟩, 1⟩
        = IsCollision (⟨⟨0, 0, 0⟩, 1⟩ : Sphere F32) ⟨⟨3, 0, 0⟩, 1⟩ := by
  have hd : Subtract (Add s1.center t) (Add s2.center t) = Subtract s1.center s2.center := by
    simp [Subtract, Add]
  refine ⟨?_, ?_, by decide, by decide⟩
  · simp only [IsCollision, hd]
  · intro h32
    simp only [IsCollision, h32]

set_option maxRecDepth 4000 in
/-- C19, counterexample: in binary32, with the values `cosf` and `sinf` return at `±1` and
`±2`, entry `(1,1)` of `Mul (MakeRotateX a) (MakeRotateX (-a))` and entry `(0,0)` of
`Mul (MakeRotateY a) (MakeRotateY (-a))` are `0.99999994` for `a = 1` and for `a = 2`, so the
products are not `MakeIdentity`; and `Transform` by `MakeRotateX 1` or `MakeRotateY 1` takes the
vector `(1, 2, 3)`, of squared length `14`, to one of squared length `13.999999`. -/
theorem MakeRotate_rotation_counterexample :
    (Mul (MakeRotateX cosfTab sinfTab 1) (MakeRotateX cosfTab sinfTab (-1))).m 1 1 = 0.99999994 ∧
      (Mul (MakeRotateY cosfTab sinfTab 1) (MakeRotateY cosfTab sinfTab (-1))).m 0 0
        = 0.99999994 ∧
      (Mul (MakeRotateX cosfTab sinfTab 2) (MakeRotateX cosfTab sinfTab (-2))).m 1 1
        = 0.99999994 ∧
      (Mul (MakeRotateY cosfTab sinfTab 2) (MakeRotateY cosfTab sinfTab (-2))).m 0 0
        = 0.99999994 ∧
      (MakeIdentity : Matrix4x4 F32).m 1 1 = 1 ∧ (MakeIdentity : Matrix4x4 F32).m 0 0 = 1 ∧
      (0.99999994 : F32) ≠ 1 ∧
      LengthSq (⟨1, 2, 3⟩ : Vector3 F32) = 14 ∧
      LengthSq (Transform (⟨1, 2, 3⟩ : Vector3 F32) (MakeRotateX cosfTab sinfTab 1))
        = 13.999999 ∧
      LengthSq (Transform (⟨1, 2, 3⟩ : Vector3 F32) (MakeRotateY cosfTab sinfTab 1))
        = 13.999999 ∧
      (13.999999 : F32) ≠ 14 := by
  decide

set_option maxRecDepth 4000 in
/-- C19, amended: over exact arithmetic `MakeRotateX` and `MakeRotateY` are rotations:
`Mul (MakeRotateX a) (MakeRotateX (-a))` and `Mul (MakeRotateY a) (MakeRotateY (-a))` are
`MakeIdentity`, and `Transform` by `MakeRotateX a` or `MakeRotateY a` keeps `LengthSq`; of
`cosf` and `sinf` only the parity at `a` and `cosf a * cosf a + sinf a * sinf a = 1` are
used.  In binary32, at the angle `a = 0.5` both products are `MakeIdentity` entry by entry. -/
theorem MakeRotate_rotation (cosf sinf : α → α) (a : α) (v : Vector3 α)
    (hcos : cosf (-a) = cosf a) (hsin : sinf (-a) = -sinf a)
    (hpyth : cosf a * cosf a + sinf a * sinf a = 1) :
    Mul (MakeRotateX cosf sinf a) (MakeRotateX cosf sinf (-a)) = MakeIdentity ∧
      Mul (MakeRotateY cosf sinf a) (MakeRotateY cosf sinf (-a)) = MakeIdentity ∧
      LengthSq (Transform v (MakeRotateX cosf sinf a)) = LengthSq v ∧
      LengthSq (Transform v (MakeRotateY cosf sinf a)) = LengthSq v ∧
      (∀ i j : Fin 4,
        (Mul (MakeRotateX cosfTab sinfTab 0.5) (MakeRotateX cosfTab sinfTab (-0.5))).m i j
          = (MakeIdentity : Matrix4x4 F32).m i j) ∧
      (∀ i j : Fin 4,
        (Mul (MakeRotateY cosfTab sinfTab 0.5) (MakeRotateY cosfTab sinfTab (-0.5))).m i j
          = (MakeIdentity : Matrix4x4 F32).m i j) := by
  refine ⟨?_, ?_, ?_, ?_, by decide, by decide⟩
  · apply Matrix4x4.ext_entries
    intro i j
    fin_cases i <;> fin_cases j <;>
      simp [Mul_m, MakeRotateX, Matrix4x4.set, MakeIdentity_m, hcos, hsin] <;>
      first | linear_combination hpyth | ring
  · apply Matrix4x4.ext_entries
    intro i j
    fin_cases i <;> fin_cases j <;>
      simp [Mul_m, MakeRotateY, Matrix4x4.set, MakeIdentity_m, hcos, hsin] <;>
      first | linear_combination hpyth | ring
  · rw [Transform_eq]
    simp [Transform.w, MakeRotateX, Matrix4x4.set, MakeIdentity_m, LengthSq, Dot]
    linear_combination (v.y * v.y + v.z * v.z) * hpyth
  · rw [Transform_eq]
    simp [Transform.w, MakeRotateY, Matrix4x4.set, MakeIdentity_m, LengthSq, Dot]
    linear_combination (v.x * v.x + v.z * v.z) * hpyth

/-- Witness of C19 over the reals: the real cosine and sine, the angle `1` and the vector
`(1, 2, 3)`. -/
theorem MakeRotate_rotation_witness :
    Real.cos (-1) = Real.cos 1 ∧ Real.sin (-1) = -Real.sin 1 ∧
      Real.cos 1 * Real.cos 1 + Real.sin 1 * Real.sin 1 = 1 ∧
      (Mul (MakeRotateX Real.cos Real.sin 1) (MakeRotateX Real.cos Real.sin (-1))
          = MakeIdentity ∧
        Mul (MakeRotateY Real.cos Real.sin 1) (MakeRotateY Real.cos Real.sin (-1))
          = MakeIdentity ∧
        LengthSq (Transform (⟨1, 2, 3⟩ : Vector3 ℝ) (MakeRotateX Real.cos Real.sin 1))
          = LengthSq ⟨1, 2, 3⟩ ∧
        LengthSq (Transform (⟨1, 2, 3⟩ : Vector3 ℝ) (MakeRotateY Real.cos Real.sin 1))
          = LengthSq ⟨1, 2, 3⟩) :=
  have hp : Real.cos 1 * Real.cos 1 + Real.sin 1 * Real.sin 1 = 1 := by
    rw [← sq, ← sq]
    exact Real.cos_sq_add_sin_sq 1
  have h := MakeRotate_rotation Real.cos Real.sin 1 ⟨1, 2, 3⟩ (Real.cos_neg 1)
    (Real.sin_neg 1) hp
  ⟨Real.cos_neg 1, Real.sin_neg 1, hp, h.1, h.2.1, h.2.2.1, h.2.2.2.1⟩

/-- C13, counterexample: one frame from the initial state in which the widget `Rot` writes the
pitch `2` (no key, no button) ends with pitch `2`, above `kPI * 0.49` and above `0.49 * π`. -/
theorem pitch_ui_counterexample :
    (runLoop dinput (WinMain.init : LoopState ℝ) [uiPitchInput]).camRot.x = 2 ∧
      ¬ ((2 : ℝ) ≤ kPI * 0.49) ∧ ¬ ((2 : ℝ) ≤ 0.49 * Real.pi) := by
  refine ⟨?_, ?_, ?_⟩
  · simp [runLoop, exitCheck, frame_camRot, uiPitchInput, idleInput]
  · norm_num [kPI]
  · have := Real.pi_lt_d2
    linarith

/-- C13, amended: starting from the initial pitch `0`, whatever keys are held and whatever the
cursor displacement and the button state in each frame, the pitch lies in
`[-kPI * 0.49, kPI * 0.49]` when the loop is left or the inputs are used up, provided the widget
`Rot` of every frame maps a pitch inside that range to a pitch inside it (it leaves the pitch
alone, or writes a value of the range). -/
theorem pitch_clamped (dik : KeyCodes) (inputs : List (FrameInput α))
    (hui : ∀ inp ∈ inputs, ∀ r : Vector3 α, (-kPI * 0.49 ≤ r.x ∧ r.x ≤ kPI * 0.49) →
      (-kPI * 0.49 ≤ (inp.uiRot r).x ∧ (inp.uiRot r).x ≤ kPI * 0.49)) :
    -kPI * 0.49 ≤ (runLoop dik WinMain.init inputs).camRot.x ∧
      (runLoop dik WinMain.init inputs).camRot.x ≤ kPI * 0.49 := by
  apply runLoop_pitch_aux dik inputs _ _ hui
  simp only [WinMain.init]
  norm_num [kPI]

/-- Witness of C13 (amended): one frame with the right button pressed and the cursor moved down
by `1000`, the widgets idle. -/
theorem pitch_clamped_witness :
    (∀ inp ∈ [(dragInput : FrameInput ℚ)], ∀ r : Vector3 ℚ,
        (-kPI * 0.49 ≤ r.x ∧ r.x ≤ kPI * 0.49) →
        (-kPI * 0.49 ≤ (inp.uiRot r).x ∧ (inp.uiRot r).x ≤ kPI * 0.49)) ∧
      (-kPI * 0.49 ≤ (runLoop dinput (WinMain.init : LoopState ℚ) [dragInput]).camRot.x ∧
        (runLoop dinput (WinMain.init : LoopState ℚ) [dragInput]).camRot.x ≤ kPI * 0.49) :=
  have h : ∀ inp ∈ [(dragInput : FrameInput ℚ)], ∀ r : Vector3 ℚ,
      (-kPI * 0.49 ≤ r.x ∧ r.x ≤ kPI * 0.49) →
      (-kPI * 0.49 ≤ (inp.uiRot r).x ∧ (inp.uiRot r).x ≤ kPI * 0.49) := by
    intro inp hinp r hr
    rw [List.mem_singleton] at hinp
    subst hinp
    exact hr
  ⟨h, pitch_clamped dinput [dragInput] h⟩

/-- C14: `preKeys` of a frame is the key array of the frame before (the zero array in the first
frame) and `keys` is the frame's poll; the frame breaks out of the loop exactly when
`preKeys[DIK_ESCAPE] == 0` and `keys[DIK_ESCAPE] != 0`; so of two consecutive frames the second
one breaks exactly when the key was up in the first poll and is down in the second (a key held
across both polls does not trigger it), and the first frame of the loop breaks exactly when
the key is down in the first poll. -/
theorem exit_on_key_edge (dik : KeyCodes) (st : LoopState α) (inp inp2 : FrameInput α)
    (rest : List (FrameInput α)) :
    (frame dik st inp).preKeys = st.keys ∧ (frame dik st inp).keys = inp.keys ∧
      (exitCheck dik (frame dik st inp) = true ↔
        st.keys dik.DIK_ESCAPE = 0 ∧ inp.keys dik.DIK_ESCAPE ≠ 0) ∧
      (runLoop dik st (inp :: rest) =
        if inp.processMessage ≠ 0 then st
        else if st.keys dik.DIK_ESCAPE = 0 ∧ inp.keys dik.DIK_ESCAPE ≠ 0 then frame dik st inp
        else runLoop dik (frame dik st inp) rest) ∧
      (exitCheck dik (frame dik (frame dik st inp) inp2) = true ↔
        inp.keys dik.DIK_ESCAPE = 0 ∧ inp2.keys dik.DIK_ESCAPE ≠ 0) ∧
      (exitCheck dik (frame dik (WinMain.init : LoopState α) inp) = true ↔
        inp.keys dik.DIK_ESCAPE ≠ 0) := by
  have hpre : ∀ (s : LoopState α) (i : FrameInput α), (frame dik s i).preKeys = s.keys :=
    fun _ _ => rfl
  have hkeys : ∀ (s : LoopState α) (i : FrameInput α), (frame dik s i).keys = i.keys :=
    fun _ _ => rfl
  have hexit : ∀ (s : LoopState α) (i : FrameInput α), (exitCheck dik (frame dik s i) = true ↔
      s.keys dik.DIK_ESCAPE = 0 ∧ i.keys dik.DIK_ESCAPE ≠ 0) := by
    intro s i
    simp [exitCheck, hpre, hkeys]
  refine ⟨hpre st inp, hkeys st inp, hexit st inp, ?_, ?_, ?_⟩
  · rw [runLoop]
    by_cases hp : inp.processMessage ≠ 0
    · simp [hp]
    · by_cases he : exitCheck dik (frame dik st inp) = true
      · simp [hp, he, (hexit st inp).mp he]
      · have hn : ¬ (st.keys dik.DIK_ESCAPE = 0 ∧ inp.keys dik.DIK_ESCAPE ≠ 0) :=
          fun h => he ((hexit st inp).mpr h)
        simp [hp, he, hn]
  · rw [hexit, hkeys]
  · rw [hexit]
    simp [WinMain.init]

/-- C12, counterexample: the camera pose `camPos = (0, 2, -4)`, `camRot = (0, 0, 0)` is reached
from the initial state by one frame in which the widget `Pos` writes that position, and also by
eighty frames with only the key `W` held; in that pose the grid endpoint `(-4, 0, -4)`, drawn at
loop index `0`, has homogeneous component `0` under `vp`, so `Transform` divides by zero. -/
theorem vp_w_zero_counterexample :
    (runLoop dinput (WinMain.init : LoopState ℝ) [uiPosInput]).camPos = ⟨0, 2, -4⟩ ∧
      (runLoop dinput (WinMain.init : LoopState ℝ) [uiPosInput]).camRot = ⟨0, 0, 0⟩ ∧
      (runLoop dinput (WinMain.init : LoopState ℝ) (List.replicate 80 holdWInput)).camPos
        = ⟨0, 2, -4⟩ ∧
      (runLoop dinput (WinMain.init : LoopState ℝ) (List.replicate 80 holdWInput)).camRot
        = ⟨0, 0, 0⟩ ∧
      (⟨-4, 0, -4⟩ : Vector3 ℝ) ∈ DrawGrid.endpoints 0 ∧
      Transform.w (⟨-4, 0, -4⟩ : Vector3 ℝ)
        (vp Real.cos Real.sin Real.tan ⟨0, 2, -4⟩ ⟨0, 0, 0⟩) = 0 := by
  refine ⟨?_, ?_, ?_, ?_, ?_, ?_⟩
  · simp [runLoop, exitCheck, frame, uiPosInput, idleInput]
  · simp [runLoop, exitCheck, frame_camRot, uiPosInput, idleInput, WinMain.init]
    norm_num
  · rw [(runLoop_holdW 80 _).1]
    simp [WinMain.init, moveSpd]
    norm_num
  · rw [(runLoop_holdW 80 _).2]
    simp [WinMain.init]
    norm_num
  · simp [DrawGrid.endpoints, DrawGrid.o, DrawGrid.half]
    norm_num
  · rw [Transform_w_vp_aux, view_z_zero_rot _ _ Real.cos_zero Real.sin_zero]
    norm_num

/-- C12, amended: the near and far constants differ (`0.1 ≠ 100`), and for every camera
position and rotation and every vertex `v` the homogeneous component under `view` is `1` and
the one under `vp = Mul view proj` is minus the view-space `z` of `v`, so it is non-zero exactly
when that `z` is non-zero; in the initial camera pose every grid endpoint has `w ≤ -4`. -/
theorem vp_w_eq_neg_view_z (cosf sinf tanf : α → α) (camPos camRot v : Vector3 α) (i : Nat)
    (hc : cosf 0 = 1) (hs : sinf 0 = 0) :
    (0.1 : α) ≠ 100.0 ∧
      Transform.w v (view cosf sinf camPos camRot) = 1 ∧
      Transform.w v (vp cosf sinf tanf camPos camRot)
        = -(Transform v (view cosf sinf camPos camRot)).z ∧
      (Transform.w v (vp cosf sinf tanf camPos camRot) ≠ 0 ↔
        (Transform v (view cosf sinf camPos camRot)).z ≠ 0) ∧
      (∀ a ∈ (DrawGrid.endpoints i : List (Vector3 α)),
        Transform.w a (vp cosf sinf tanf (WinMain.init : LoopState α).camPos
          (WinMain.init : LoopState α).camRot) ≤ -4) := by
  refine ⟨by norm_num, Transform_w_view _ _ _ _ _, Transform_w_vp_aux _ _ _ _ _ _, ?_, ?_⟩
  · rw [Transform_w_vp_aux]
    exact neg_ne_zero
  · intro a ha
    have hz : (WinMain.init : LoopState α).camRot = ⟨0, 0, 0⟩ := by
      simp [WinMain.init]
      norm_num
    rw [Transform_w_vp_aux, hz, view_z_zero_rot _ _ hc hs]
    simp only [DrawGrid.endpoints, DrawGrid.o, DrawGrid.half, DrawGrid.step, DrawGrid.div,
      List.mem_cons, List.mem_singleton, List.not_mem_nil, or_false] at ha
    simp only [WinMain.init]
    rcases ha with h | h | h | h <;> subst h <;> simp only <;> norm_num

/-- Witness of C12 (amended) over the reals: the real cosine, sine and tangent, the camera at
`(1, 2, 3)` with rotation `(1/2, 1/3, 0)`, the vertex `(4, 5, 6)` and the grid index `7`. -/
theorem vp_w_eq_neg_view_z_witness :
    Real.cos 0 = 1 ∧ Real.sin 0 = 0 ∧
      Transform.w (⟨4, 5, 6⟩ : Vector3 ℝ)
          (vp Real.cos Real.sin Real.tan ⟨1, 2, 3⟩ ⟨1 / 2, 1 / 3, 0⟩)
        = -(Transform (⟨4, 5, 6⟩ : Vector3 ℝ)
            (view Real.cos Real.sin ⟨1, 2, 3⟩ ⟨1 / 2, 1 / 3, 0⟩)).z ∧
      (∀ a ∈ (DrawGrid.endpoints 7 : List (Vector3 ℝ)),
        Transform.w a (vp Real.cos Real.sin Real.tan (WinMain.init : LoopState ℝ).camPos
          (WinMain.init : LoopState ℝ).camRot) ≤ -4) :=
  have h := vp_w_eq_neg_view_z Real.cos Real.sin Real.tan ⟨1, 2, 3⟩ ⟨1 / 2, 1 / 3, 0⟩
    (⟨4, 5, 6⟩ : Vector3 ℝ) 7 Real.cos_zero Real.sin_zero
  ⟨Real.cos_zero, Real.sin_zero, h.2.2.1, h.2.2.2.2⟩

set_option maxRecDepth 4000 in
/-- C20, counterexample: in binary32, for the sphere of centre `(1, 2, 3)` and radius `2` and
`lat = 6` (`latA = 0`), the point `p1` at `lon = 23` has squared distance `3.9999995` from the
centre, not `4`; and the point `p2` at `lon = 23`, at longitude `2 * kPI = 6.2831855`, is
`(3, 2, 3.0000002)`, not the point `p1` at `lon = 0`, which is `(3, 2, 3)`. -/
theorem DrawSphereWire_counterexample :
    (kPI : F32) = 3.1415927 ∧ (DrawSphereWire.latA 6 : F32) = 0 ∧
      (DrawSphereWire.lonA 23 : F32) = 6.0213857 ∧ (DrawSphereWire.lonB 23 : F32) = 6.2831855 ∧
      LengthSq (Subtract
        (DrawSphereWire.p1 cosfTab sinfTab (⟨⟨1, 2, 3⟩, 2⟩ : Sphere F32) 6 23) ⟨1, 2, 3⟩)
        = 3.9999995 ∧
      (2 : F32) * 2 = 4 ∧ (3.9999995 : F32) ≠ 4 ∧
      DrawSphereWire.p2 cosfTab sinfTab (⟨⟨1, 2, 3⟩, 2⟩ : Sphere F32) 6 23
        = ⟨3, 2, 3.0000002⟩ ∧
      DrawSphereWire.p1 cosfTab sinfTab (⟨⟨1, 2, 3⟩, 2⟩ : Sphere F32) 6 0 = ⟨3, 2, 3⟩ ∧
      (⟨3, 2, 3.0000002⟩ : Vector3 F32) ≠ ⟨3, 2, 3⟩ := by
  decide

/-- C20, amended: over exact arithmetic, for every sphere `sp` and all indices `lat`, `lon`,
the two world-space points `p1` and `p2` of `DrawSphereWire` satisfy
`LengthSq (Subtract p sp.center) = sp.radius ^ 2` (of `cosf` and `sinf` only
`cosf a * cosf a + sinf a * sinf a = 1` is used); and, over exact arithmetic and in binary32,
`p2` at index `lon` is `p1` at index `lon + 1`, the same expression (no wrap: for `lon = 23`
that is the point at longitude `2 * kPI`, not the first point of the ring). -/
theorem DrawSphereWire_on_sphere (cosf sinf : α → α) (sp : Sphere α) (lat lon : Nat)
    (cosf32 sinf32 : F32 → F32) (sp32 : Sphere F32)
    (hpyth : ∀ a : α, cosf a * cosf a + sinf a * sinf a = 1) :
    LengthSq (Subtract (DrawSphereWire.p1 cosf sinf sp lat lon) sp.center) = sp.radius ^ 2 ∧
      LengthSq (Subtract (DrawSphereWire.p2 cosf sinf sp lat lon) sp.center) = sp.radius ^ 2 ∧
      DrawSphereWire.p2 cosf sinf sp lat lon = DrawSphereWire.p1 cosf sinf sp lat (lon + 1) ∧
      DrawSphereWire.p2 cosf32 sinf32 sp32 lat lon
        = DrawSphereWire.p1 cosf32 sinf32 sp32 lat (lon + 1) := by
  have key : ∀ u w : α, (sp.radius * cosf u * cosf w) * (sp.radius * cosf u * cosf w)
      + (sp.radius * sinf u) * (sp.radius * sinf u)
      + (sp.radius * cosf u * sinf w) * (sp.radius * cosf u * sinf w) = sp.radius ^ 2 := by
    intro u w
    linear_combination (sp.radius ^ 2 * cosf u * cosf u) * hpyth w + sp.radius ^ 2 * hpyth u
  refine ⟨?_, ?_, rfl, rfl⟩
  · simp only [LengthSq, Dot, Subtract, DrawSphereWire.p1, add_sub_cancel_right]
    exact key _ _
  · simp only [LengthSq, Dot, Subtract, DrawSphereWire.p2, add_sub_cancel_right]
    exact key _ _

/-- Witness of C20 (amended): the sphere of centre `(1, 2, 3)` and radius `2`, `lat = 6`,
`lon = 22`, over the reals with the real cosine and sine and in binary32 with the tabulated
`cosf` and `sinf`. -/
theorem DrawSphereWire_on_sphere_witness :
    (∀ a : ℝ, Real.cos a * Real.cos a + Real.sin a * Real.sin a = 1) ∧
      (LengthSq (Subtract
          (DrawSphereWire.p1 Real.cos Real.sin (⟨⟨1, 2, 3⟩, 2⟩ : Sphere ℝ) 6 22) ⟨1, 2, 3⟩)
          = 2 ^ 2 ∧
        LengthSq (Subtract
          (DrawSphereWire.p2 Real.cos Real.sin (⟨⟨1, 2, 3⟩, 2⟩ : Sphere ℝ) 6 22) ⟨1, 2, 3⟩)
          = 2 ^ 2 ∧
        DrawSphereWire.p2 Real.cos Real.sin (⟨⟨1, 2, 3⟩, 2⟩ : Sphere ℝ) 6 22
          = DrawSphereWire.p1 Real.cos Real.sin (⟨⟨1, 2, 3⟩, 2⟩ : Sphere ℝ) 6 (22 + 1) ∧
        DrawSphereWire.p2 cosfTab sinfTab (⟨⟨1, 2, 3⟩, 2⟩ : Sphere F32) 6 22
          = DrawSphereWire.p1 cosfTab sinfTab (⟨⟨1, 2, 3⟩, 2⟩ : Sphere F32) 6 (22 + 1)) :=
  have hp : ∀ a : ℝ, Real.cos a * Real.cos a + Real.sin a * Real.sin a = 1 := by
    intro a
    rw [← sq, ← sq]
    exact Real.cos_sq_add_sin_sq a
  ⟨hp, DrawSphereWire_on_sphere Real.cos Real.sin ⟨⟨1, 2, 3⟩, 2⟩ 6 22 cosfTab sinfTab
    ⟨⟨1, 2, 3⟩, 2⟩ hp⟩

end Theorems

end MT3
